import Mathlib

/-!
Shallow embedding of the bilhetinho-api core (FastAPI + SQLAlchemy route
handlers) and proofs about its event/room lifecycle and note-exchange
state machine.

Conventions of the embedding:
* Database rows become Lean structures; the store (the SQL database) is a
  `Store` record of lists, one per table.  `db.add` appends, bulk
  `.delete()` filters, bulk `.update()` maps.
* Primary keys (uuid strings in the source) are modelled as `Nat`;
  `datetime` values as `Int` timestamps (only their ordering matters).
* An update through a fetched ORM object (`obj.field = v; commit()`)
  becomes an update of the first row matching the lookup key, which
  coincides with the SQL `UPDATE ... WHERE pk = x` under primary-key
  uniqueness.
* `random.choices` is modelled by a stream `rng : Nat → Nat` of raw draws;
  the unbounded `while True` retry loop of the code generator gets a fuel
  parameter, `none` standing for non-termination.
* Each distinct `HTTPException` site becomes a constructor of a
  per-operation error type; fallible handlers return `Except`.
* `models/room.py` in this revision omits the `event_code` column, but
  every route, schema and test reads and writes `Room.event_code`; the
  embedding therefore gives `Room` that field.
-/

namespace Bilhetinho

instance {ε α : Type} [DecidableEq ε] [DecidableEq α] : DecidableEq (Except ε α) := fun x y =>
  match x, y with
  | Except.error a, Except.error b =>
    if h : a = b then isTrue (by rw [h]) else isFalse (by intro hc; cases hc; exact h rfl)
  | Except.error _, Except.ok _ => isFalse (by intro hc; cases hc)
  | Except.ok _, Except.error _ => isFalse (by intro hc; cases hc)
  | Except.ok a, Except.ok b =>
    if h : a = b then isTrue (by rw [h]) else isFalse (by intro hc; cases hc; exact h rfl)

/-- Python `str.upper()` on one character, for the ASCII range event codes
live in. -/
def charUpper (c : Char) : Char :=
  if 'a' ≤ c ∧ c ≤ 'z' then Char.ofNat (c.toNat - 32) else c

/-- Python `str.upper()` (`code.upper()` in routes/admin.py). -/
def strUpper (s : String) : String :=
  String.mk (s.toList.map charUpper)

/-- Status of a note: `sent`, `accepted` or `ignored` (models/note.py `NoteStatus`). -/
inductive NoteStatus
  | sent
  | accepted
  | ignored
deriving DecidableEq

/-- Row of the `establishments` table (models/establishment.py). -/
structure Establishment where
  id : Nat
  name : String
  created_at : Int
deriving DecidableEq

/-- Row of the `admin_users` table (models/admin_user.py). -/
structure AdminUser where
  id : Nat
  username : String
  password_hash : String
  establishment_id : Nat
  created_at : Int
deriving DecidableEq

/-- Row of the `events` table (models/event.py); `establishment_id` is nullable. -/
structure Event where
  id : Nat
  code : String
  establishment_id : Option Nat
  start_date : Int
  end_date : Int
  number_of_tables : Nat
  is_active : Bool
  qr_code_data : String
  created_at : Int
deriving DecidableEq

/-- Row of the `rooms` table (models/room.py plus the `event_code` column used by the routes). -/
structure Room where
  id : Nat
  name : String
  is_active : Bool
  event_code : String
  created_at : Int
deriving DecidableEq

/-- Row of the `tables` table (models/table.py). -/
structure Table where
  id : Nat
  room_id : Nat
  number : Nat
deriving DecidableEq

/-- Row of the `users` table (models/user.py). -/
structure User where
  id : Nat
  nickname : String
  table_id : Nat
  room_id : Nat
  created_at : Int
deriving DecidableEq

/-- Row of the `notes` table (models/note.py). -/
structure Note where
  id : Nat
  room_id : Nat
  from_table_id : Nat
  to_table_id : Nat
  message : String
  status : NoteStatus
  is_anonymous : Bool
  created_at : Int
deriving DecidableEq

/-- The whole SQL database: one list of rows per table. -/
structure Store where
  establishments : List Establishment
  admins : List AdminUser
  events : List Event
  rooms : List Room
  tables : List Table
  users : List User
  notes : List Note
deriving DecidableEq

/-- The empty database. -/
def emptyStore : Store :=
  { establishments := [], admins := [], events := [], rooms := [],
    tables := [], users := [], notes := [] }

/-! ## Code generator (routes/admin.py `generate_event_code`) -/

/-- Alphabet `string.ascii_uppercase + string.digits` used for event codes. -/
def codeAlphabet : List Char :=
  "ABCDEFGHIJKLMNOPQRSTUVWXYZ0123456789".toList

/-- One character of `random.choices(codeAlphabet)`: the raw draw `r` picks
an element of the alphabet. -/
def drawChar (r : Nat) : Char :=
  codeAlphabet.getD (r % 36) 'A'

/-- Candidate number `i` of the generator: six characters drawn from the
stream `rng`, as in `''.join(random.choices(alphabet, k=6))`. -/
def drawCode (rng : Nat → Nat) (i : Nat) : String :=
  String.mk ((List.range 6).map (fun j => drawChar (rng (6 * i + j))))

/-- The retry loop of `generate_event_code`, with fuel: draw a candidate,
query the store for an event with that code, return the candidate when the
query comes back empty, retry otherwise. -/
def generate_event_code_from (s : Store) (rng : Nat → Nat) : Nat → Nat → Option String
  | 0, _ => none
  | fuel + 1, i =>
    let code := drawCode rng i
    match s.events.find? (fun e => e.code == code) with
    | some _ => generate_event_code_from s rng fuel (i + 1)
    | none => some code

/-- routes/admin.py `generate_event_code`: retry from candidate 0. -/
def generate_event_code (s : Store) (rng : Nat → Nat) (fuel : Nat) : Option String :=
  generate_event_code_from s rng fuel 0

/-! ## Event lifecycle (routes/admin.py) -/

/-- Error cases of `create_event` (the date-format 400 lives in the HTTP
parsing layer and is not modelled). -/
inductive CreateEventError
  | invalidDates
  | invalidTableCount
deriving DecidableEq

/-- routes/admin.py `create_event`.  Validates the dates and the table
count, deactivates the active events of the acting admin's establishment
only, generates a fresh code, then inserts the event (active), its room
(active) and its numbered tables.  `rng`/`fuel` drive the code generator;
`qr` is the opaque QR payload; `eventId`, `roomId`, `tableIdBase` model the
fresh uuids; `t` is `utcnow` used for `created_at`.  The outer `Option` is
`none` only when the generator runs out of fuel. -/
def create_event (s : Store) (estId : Nat) (start_d end_d : Int) (n : Nat)
    (rng : Nat → Nat) (fuel : Nat) (qr : String) (eventId roomId tableIdBase : Nat)
    (t : Int) : Option (Except CreateEventError Store) :=
  if end_d ≤ start_d then some (Except.error CreateEventError.invalidDates)
  else if n < 1 || n > 100 then some (Except.error CreateEventError.invalidTableCount)
  else
    let s1 : Store := { s with events := s.events.map (fun e =>
      if e.is_active && e.establishment_id == some estId then
        { e with is_active := false } else e) }
    match generate_event_code s1 rng fuel with
    | none => none
    | some code =>
      let ev : Event :=
        { id := eventId, code := code, establishment_id := some estId,
          start_date := start_d, end_date := end_d, number_of_tables := n,
          is_active := true, qr_code_data := qr, created_at := t }
      let rm : Room :=
        { id := roomId, name := "Evento " ++ code, is_active := true,
          event_code := code, created_at := t }
      let tbls : List Table :=
        (List.range n).map (fun i => { id := tableIdBase + i, room_id := roomId, number := i + 1 })
      some (Except.ok { s1 with
        events := s1.events ++ [ev],
        rooms := s1.rooms ++ [rm],
        tables := s1.tables ++ tbls })

/-- Error cases of `deactivate_event`: 404 event not found, 403 wrong establishment. -/
inductive DeactivateError
  | notFound
  | forbidden
deriving DecidableEq

/-- Clear `is_active` on the first event whose id matches (the fetched ORM object). -/
def setEventInactive : List Event → Nat → List Event
  | [], _ => []
  | e :: rest, eid =>
    if e.id == eid then { e with is_active := false } :: rest
    else e :: setEventInactive rest eid

/-- Clear `is_active` on the first room whose `event_code` matches, if any
(`db.query(Room).filter(Room.event_code == event.code).first()`). -/
def setRoomInactiveByCode : List Room → String → List Room
  | [], _ => []
  | r :: rest, code =>
    if r.event_code == code then { r with is_active := false } :: rest
    else r :: setRoomInactiveByCode rest code

/-- routes/admin.py `deactivate_event`: 404 when the event id is unknown,
403 when the event's establishment is not the acting admin's, otherwise
clear the event's flag and the paired room's flag. -/
def deactivate_event (s : Store) (eventId : Nat) (adminEstId : Nat) :
    Except DeactivateError Store :=
  match s.events.find? (fun e => e.id == eventId) with
  | none => Except.error DeactivateError.notFound
  | some ev =>
    if ev.establishment_id == some adminEstId then
      Except.ok { s with
        events := setEventInactive s.events eventId,
        rooms := setRoomInactiveByCode s.rooms ev.code }
    else Except.error DeactivateError.forbidden

/-- Error cases of `validate_event_code`: 404 unknown code, 400 not
started, 400 expired, 404 room missing. -/
inductive ValidateError
  | invalidCode
  | notStarted
  | expired
  | roomNotFound
deriving DecidableEq

/-- Successful payload of `validate_event_code`. -/
structure ValidateOk where
  code : String
  room_id : Nat
  room_name : String
deriving DecidableEq

/-- routes/admin.py `validate_event_code`: look the event up by the
upper-cased code, then check `start_date <= now <= end_date`, then fetch
the room by the same code.  Note that `is_active` is never consulted. -/
def validate_event_code (s : Store) (now : Int) (code : String) :
    Except ValidateError ValidateOk :=
  match s.events.find? (fun e => e.code == strUpper code) with
  | none => Except.error ValidateError.invalidCode
  | some ev =>
    if ev.start_date ≤ now ∧ now ≤ ev.end_date then
      match s.rooms.find? (fun r => r.event_code == strUpper code) with
      | none => Except.error ValidateError.roomNotFound
      | some rm => Except.ok { code := ev.code, room_id := rm.id, room_name := rm.name }
    else if now < ev.start_date then Except.error ValidateError.notStarted
    else Except.error ValidateError.expired

/-! ## Note exchange (routes/notes.py) -/

/-- Configurable per-table quota `MAX_NOTES_PER_USER` default (routes/notes.py line 12);
the operations below take the configured value as a parameter. -/
def MAX_NOTES_PER_USER : Nat := 10

/-- Request body of `POST /notes` (schemas/note.py `NoteCreate`). -/
structure NoteCreate where
  from_table_id : Nat
  to_table_id : Nat
  message : String
  is_anonymous : Bool
deriving DecidableEq

/-- Error cases of `create_note`, in source order: 404 table missing,
403 room missing or closed, 400 different rooms, 400 same table,
429 quota reached. -/
inductive CreateNoteError
  | tableNotFound
  | roomClosed
  | differentRooms
  | sameTable
  | rateLimited
deriving DecidableEq

/-- routes/notes.py `create_note`.  `maxNotes` is the configured
`MAX_NOTES_PER_USER`, `nid` the fresh uuid, `t` the creation time.
The checks run in exactly the order of the handler. -/
def create_note (s : Store) (maxNotes : Nat) (req : NoteCreate) (nid : Nat) (t : Int) :
    Except CreateNoteError (Store × Note) :=
  match s.tables.find? (fun tb => tb.id == req.from_table_id),
        s.tables.find? (fun tb => tb.id == req.to_table_id) with
  | some from_table, some to_table =>
    match s.rooms.find? (fun r => r.id == from_table.room_id) with
    | none => Except.error CreateNoteError.roomClosed
    | some rm =>
      if rm.is_active = false then Except.error CreateNoteError.roomClosed
      else if from_table.room_id ≠ to_table.room_id then Except.error CreateNoteError.differentRooms
      else if req.from_table_id = req.to_table_id then Except.error CreateNoteError.sameTable
      else if maxNotes ≤ (s.notes.filter (fun n => n.from_table_id == req.from_table_id)).length then
        Except.error CreateNoteError.rateLimited
      else
        let n : Note :=
          { id := nid, room_id := from_table.room_id,
            from_table_id := req.from_table_id, to_table_id := req.to_table_id,
            message := req.message, status := NoteStatus.sent,
            is_anonymous := req.is_anonymous, created_at := t }
        Except.ok ({ s with notes := s.notes ++ [n] }, n)
  | _, _ => Except.error CreateNoteError.tableNotFound

/-- Error cases of `accept_note` / `ignore_note`: 404 note missing,
400 "Bilhete já foi processado". -/
inductive RespondError
  | notFound
  | alreadyProcessed
deriving DecidableEq

/-- Set the status of the first note whose id matches (the fetched ORM object). -/
def setNoteStatus : List Note → Nat → NoteStatus → List Note
  | [], _, _ => []
  | n :: rest, nid, st =>
    if n.id == nid then { n with status := st } :: rest
    else n :: setNoteStatus rest nid st

/-- routes/notes.py `accept_note`: 404 when absent, 400 when the status is
not `sent`, otherwise set the status to `accepted` and return the note. -/
def accept_note (s : Store) (nid : Nat) : Except RespondError (Store × Note) :=
  match s.notes.find? (fun n => n.id == nid) with
  | none => Except.error RespondError.notFound
  | some n =>
    if n.status = NoteStatus.sent then
      Except.ok ({ s with notes := setNoteStatus s.notes nid NoteStatus.accepted },
                 { n with status := NoteStatus.accepted })
    else Except.error RespondError.alreadyProcessed

/-- routes/notes.py `ignore_note`: same shape as `accept_note` with status `ignored`. -/
def ignore_note (s : Store) (nid : Nat) : Except RespondError (Store × Note) :=
  match s.notes.find? (fun n => n.id == nid) with
  | none => Except.error RespondError.notFound
  | some n =>
    if n.status = NoteStatus.sent then
      Except.ok ({ s with notes := setNoteStatus s.notes nid NoteStatus.ignored },
                 { n with status := NoteStatus.ignored })
    else Except.error RespondError.alreadyProcessed

/-! ## Users (routes/users.py) -/

/-- Error cases of `create_user`: 404 table missing, 400 room missing or inactive. -/
inductive CreateUserError
  | tableNotFound
  | roomNotActive
deriving DecidableEq

/-- routes/users.py `create_user`: the table must exist and its room must
exist and be active. -/
def create_user (s : Store) (nickname : String) (tableId : Nat) (uid : Nat) (t : Int) :
    Except CreateUserError (Store × User) :=
  match s.tables.find? (fun tb => tb.id == tableId) with
  | none => Except.error CreateUserError.tableNotFound
  | some tb =>
    match s.rooms.find? (fun r => r.id == tb.room_id) with
    | none => Except.error CreateUserError.roomNotActive
    | some rm =>
      if rm.is_active = false then Except.error CreateUserError.roomNotActive
      else
        let u : User :=
          { id := uid, nickname := nickname, table_id := tableId,
            room_id := rm.id, created_at := t }
        Except.ok ({ s with users := s.users ++ [u] }, u)

/-! ## Rooms (routes/rooms.py) -/

/-- routes/rooms.py `create_room`: unconditional insert; the model default
leaves the new room inactive. -/
def create_room (s : Store) (nm : String) (eventCode : String) (rid : Nat) (t : Int) : Store :=
  { s with rooms := s.rooms ++
      [{ id := rid, name := nm, is_active := false, event_code := eventCode, created_at := t }] }

/-- Set `is_active` on the first room whose id matches (the fetched ORM object). -/
def setRoomActive : List Room → Nat → List Room
  | [], _ => []
  | r :: rest, rid =>
    if r.id == rid then { r with is_active := true } :: rest
    else r :: setRoomActive rest rid

/-- routes/rooms.py `activate_room`: 404 when the room is unknown,
otherwise deactivate every room in the store and activate the target.
No event is consulted. -/
def activate_room (s : Store) (rid : Nat) : Except Unit Store :=
  match s.rooms.find? (fun r => r.id == rid) with
  | none => Except.error ()
  | some _ =>
    Except.ok { s with
      rooms := setRoomActive (s.rooms.map (fun r => { r with is_active := false })) rid }

/-! ## Master operations (routes/master.py) -/

/-- routes/master.py `create_establishment`: unconditional insert. -/
def create_establishment (s : Store) (id : Nat) (nm : String) (t : Int) : Store :=
  { s with establishments := s.establishments ++ [{ id := id, name := nm, created_at := t }] }

/-- Rename the first establishment whose id matches. -/
def setEstablishmentName : List Establishment → Nat → String → List Establishment
  | [], _, _ => []
  | e :: rest, estId, nm =>
    if e.id == estId then { e with name := nm } :: rest
    else e :: setEstablishmentName rest estId nm

/-- routes/master.py `update_establishment`: 404 when unknown, else rename. -/
def update_establishment (s : Store) (estId : Nat) (nm : String) : Except Unit Store :=
  match s.establishments.find? (fun e => e.id == estId) with
  | none => Except.error ()
  | some _ => Except.ok { s with establishments := setEstablishmentName s.establishments estId nm }

/-- Error cases of `create_admin_user`: 404 establishment, 400 username taken. -/
inductive CreateAdminError
  | establishmentNotFound
  | usernameExists
deriving DecidableEq

/-- routes/master.py `create_admin_user`. -/
def create_admin_user (s : Store) (id : Nat) (username pwHash : String) (estId : Nat) (t : Int) :
    Except CreateAdminError Store :=
  match s.establishments.find? (fun e => e.id == estId) with
  | none => Except.error CreateAdminError.establishmentNotFound
  | some _ =>
    match s.admins.find? (fun a => a.username == username) with
    | some _ => Except.error CreateAdminError.usernameExists
    | none =>
      Except.ok { s with admins := s.admins ++
        [{ id := id, username := username, password_hash := pwHash,
           establishment_id := estId, created_at := t }] }

/-- Error cases of `update_admin_user`. -/
inductive UpdateAdminError
  | adminNotFound
  | usernameExists
  | establishmentNotFound
deriving DecidableEq

/-- Set the username of the first admin whose id matches. -/
def setAdminUsername : List AdminUser → Nat → String → List AdminUser
  | [], _, _ => []
  | a :: rest, adminId, u =>
    if a.id == adminId then { a with username := u } :: rest
    else a :: setAdminUsername rest adminId u

/-- Move the first admin whose id matches to another establishment. -/
def setAdminEstablishment : List AdminUser → Nat → Nat → List AdminUser
  | [], _, _ => []
  | a :: rest, adminId, estId =>
    if a.id == adminId then { a with establishment_id := estId } :: rest
    else a :: setAdminEstablishment rest adminId estId

/-- Second half of `update_admin_user`: optionally move the admin (whose
current establishment is `oldEst`) to another establishment, dragging
every event of the old establishment along. -/
def update_admin_establishment (s1 : Store) (adminId : Nat) (oldEst : Nat) (ne : Option Nat) :
    Except UpdateAdminError Store :=
  match ne with
  | none => Except.ok s1
  | some eId =>
    if eId == oldEst then Except.ok s1
    else
      match s1.establishments.find? (fun est => est.id == eId) with
      | none => Except.error UpdateAdminError.establishmentNotFound
      | some _ =>
        Except.ok { s1 with
          events := s1.events.map (fun ev =>
            if ev.establishment_id == some oldEst then
              { ev with establishment_id := some eId } else ev),
          admins := setAdminEstablishment s1.admins adminId eId }

/-- routes/master.py `update_admin_user`: optionally rename the admin
(rejecting a taken username), then optionally move it to another
establishment, in which case every event of the admin's old establishment
is moved along with it. -/
def update_admin_user (s : Store) (adminId : Nat) (newU : Option String) (newE : Option Nat) :
    Except UpdateAdminError Store :=
  match s.admins.find? (fun a => a.id == adminId) with
  | none => Except.error UpdateAdminError.adminNotFound
  | some adm =>
    match newU with
    | none => update_admin_establishment s adminId adm.establishment_id newE
    | some u =>
      if u == adm.username then update_admin_establishment s adminId adm.establishment_id newE
      else if s.admins.any (fun a => a.username == u) then
        Except.error UpdateAdminError.usernameExists
      else update_admin_establishment
        { s with admins := setAdminUsername s.admins adminId u } adminId adm.establishment_id newE

/-- Set the password hash of the first admin whose id matches. -/
def setAdminPassword : List AdminUser → Nat → String → List AdminUser
  | [], _, _ => []
  | a :: rest, adminId, h =>
    if a.id == adminId then { a with password_hash := h } :: rest
    else a :: setAdminPassword rest adminId h

/-- routes/master.py `update_admin_password`: 404 when unknown, else re-hash. -/
def update_admin_password (s : Store) (adminId : Nat) (pwHash : String) : Except Unit Store :=
  match s.admins.find? (fun a => a.id == adminId) with
  | none => Except.error ()
  | some _ => Except.ok { s with admins := setAdminPassword s.admins adminId pwHash }

/-- routes/master.py `delete_admin_user`: 404 when unknown, else delete the
row; events are left behind. -/
def delete_admin_user (s : Store) (adminId : Nat) : Except Unit Store :=
  match s.admins.find? (fun a => a.id == adminId) with
  | none => Except.error ()
  | some _ => Except.ok { s with admins := s.admins.filter (fun a => !(a.id == adminId)) }

/-- Delete the notes, users and tables of one room (the inner loop body of
`delete_establishment`). -/
def deleteRoomChildren (s : Store) (roomId : Nat) : Store :=
  { s with
    notes := s.notes.filter (fun n => !(n.room_id == roomId)),
    users := s.users.filter (fun u => !(u.room_id == roomId)),
    tables := s.tables.filter (fun tb => !(tb.room_id == roomId)) }

/-- Body of the per-code loop of `delete_establishment`: delete the
children of every room carrying the code, then the rooms themselves. -/
def deleteForCode (s : Store) (code : String) : Store :=
  let rms := s.rooms.filter (fun r => r.event_code == code)
  let s1 := rms.foldl (fun acc r => deleteRoomChildren acc r.id) s
  { s1 with rooms := s1.rooms.filter (fun r => !(r.event_code == code)) }

/-- routes/master.py `delete_establishment`: 404 when unknown; otherwise
delete, for each event code of the establishment, the notes, users and
tables of each room with that code, then those rooms; then the events,
the admin users and the establishment row. -/
def delete_establishment (s : Store) (estId : Nat) : Except Unit Store :=
  match s.establishments.find? (fun e => e.id == estId) with
  | none => Except.error ()
  | some _ =>
    let codes := (s.events.filter (fun e => e.establishment_id == some estId)).map (fun e => e.code)
    let s1 := codes.foldl deleteForCode s
    Except.ok { s1 with
      events := s1.events.filter (fun e => !(e.establishment_id == some estId)),
      admins := s1.admins.filter (fun a => !(a.establishment_id == estId)),
      establishments := s1.establishments.filter (fun e => !(e.id == estId)) }

/-! ## Seed endpoint (routes/seed.py) -/

/-- Fresh uuids, hashes, QR payloads and generator state consumed by the
seed endpoint, which creates three fixed establishments. -/
structure SeedParams where
  rng : Nat → Nat
  fuel : Nat
  now : Int
  estIds : Nat × Nat × Nat
  adminIds : Nat × Nat × Nat
  eventIds : Nat × Nat × Nat
  roomIds : Nat × Nat × Nat
  tableBases : Nat × Nat × Nat
  hashes : String × String × String
  qrs : String × String × String

/-- One iteration of the seed loop: establishment, admin, active event with
a generated code, room, numbered tables. -/
def seedOne (s : Store) (estId adminId eventId roomId tBase : Nat)
    (nm username pwHash qr : String) (nTables : Nat)
    (rng : Nat → Nat) (fuel : Nat) (now : Int) : Option Store :=
  let s1 := create_establishment s estId nm now
  let s2 := { s1 with admins := s1.admins ++
    [{ id := adminId, username := username, password_hash := pwHash,
       establishment_id := estId, created_at := now }] }
  match generate_event_code s2 rng fuel with
  | none => none
  | some code =>
    let s3 := { s2 with events := s2.events ++
      [({ id := eventId, code := code, establishment_id := some estId,
          start_date := now, end_date := now + 21600, number_of_tables := nTables,
          is_active := true, qr_code_data := qr, created_at := now } : Event)] }
    let s4 := { s3 with rooms := s3.rooms ++
      [({ id := roomId, name := "Evento " ++ code, is_active := true,
          event_code := code, created_at := now } : Room)] }
    some { s4 with tables := s4.tables ++
      (List.range nTables).map (fun i =>
        ({ id := tBase + i, room_id := roomId, number := i + 1 } : Table)) }

/-- routes/seed.py `seed_database`: wipe every table, then create the three
fixed establishments "Bar Central" (15 tables), "Noite do Bilhetinho" (20)
and "Casa Show Tropical" (10), each with one admin and one active event. -/
def seed_database (p : SeedParams) : Option Store :=
  match seedOne emptyStore p.estIds.1 p.adminIds.1 p.eventIds.1 p.roomIds.1 p.tableBases.1
      "Bar Central" "bar_central" p.hashes.1 p.qrs.1 15 p.rng p.fuel p.now with
  | none => none
  | some s1 =>
    match seedOne s1 p.estIds.2.1 p.adminIds.2.1 p.eventIds.2.1 p.roomIds.2.1 p.tableBases.2.1
        "Noite do Bilhetinho" "noite_bilhetinho" p.hashes.2.1 p.qrs.2.1 20 p.rng p.fuel p.now with
    | none => none
    | some s2 =>
      seedOne s2 p.estIds.2.2 p.adminIds.2.2 p.eventIds.2.2 p.roomIds.2.2 p.tableBases.2.2
        "Casa Show Tropical" "casa_tropical" p.hashes.2.2 p.qrs.2.2 10 p.rng p.fuel p.now

/-! ## The transition system

One `Step` per state-changing API operation; parameters model the fresh
uuids (`uuid4` freshness is a side condition where a claim depends on it)
and the authenticated caller resolved by the auth layer.  The standalone
maintenance scripts (`clear_users.py`, the migrations) are not part of the
served API and are not steps. -/

inductive Step : Store → Store → Prop
  | estCreated (s : Store) (id : Nat) (nm : String) (t : Int) :
      Step s (create_establishment s id nm t)
  | estUpdated (s : Store) (estId : Nat) (nm : String) (s' : Store) :
      update_establishment s estId nm = Except.ok s' → Step s s'
  | estDeleted (s : Store) (estId : Nat) (s' : Store) :
      delete_establishment s estId = Except.ok s' → Step s s'
  | adminCreated (s : Store) (id : Nat) (u pw : String) (estId : Nat) (t : Int) (s' : Store) :
      create_admin_user s id u pw estId t = Except.ok s' → Step s s'
  | adminUpdated (s : Store) (adminId : Nat) (nu : Option String) (ne : Option Nat) (s' : Store) :
      update_admin_user s adminId nu ne = Except.ok s' → Step s s'
  | adminPasswordUpdated (s : Store) (adminId : Nat) (pw : String) (s' : Store) :
      update_admin_password s adminId pw = Except.ok s' → Step s s'
  | adminDeleted (s : Store) (adminId : Nat) (s' : Store) :
      delete_admin_user s adminId = Except.ok s' → Step s s'
  | eventCreated (s : Store) (estId : Nat) (sd ed : Int) (n : Nat) (rng : Nat → Nat)
      (fuel : Nat) (qr : String) (eid rid tb : Nat) (t : Int) (s' : Store) :
      create_event s estId sd ed n rng fuel qr eid rid tb t = some (Except.ok s') → Step s s'
  | eventDeactivated (s : Store) (eid estId : Nat) (s' : Store) :
      deactivate_event s eid estId = Except.ok s' → Step s s'
  | roomCreated (s : Store) (nm code : String) (rid : Nat) (t : Int) :
      Step s (create_room s nm code rid t)
  | roomActivated (s : Store) (rid : Nat) (s' : Store) :
      activate_room s rid = Except.ok s' → Step s s'
  | userCreated (s : Store) (nick : String) (tid uid : Nat) (t : Int) (s' : Store) (u : User) :
      create_user s nick tid uid t = Except.ok (s', u) → Step s s'
  | noteCreated (s : Store) (maxNotes : Nat) (req : NoteCreate) (nid : Nat) (t : Int)
      (s' : Store) (n : Note) :
      nid ∉ s.notes.map (fun m => m.id) →
      create_note s maxNotes req nid t = Except.ok (s', n) → Step s s'
  | noteAccepted (s : Store) (nid : Nat) (s' : Store) (n : Note) :
      accept_note s nid = Except.ok (s', n) → Step s s'
  | noteIgnored (s : Store) (nid : Nat) (s' : Store) (n : Note) :
      ignore_note s nid = Except.ok (s', n) → Step s s'
  | seeded (s : Store) (p : SeedParams) (s' : Store) :
      seed_database p = some s' → Step s s'

/-- A store state the served API can produce from the empty database. -/
inductive Reachable : Store → Prop
  | init : Reachable emptyStore
  | step {s s' : Store} : Reachable s → Step s s' → Reachable s'

/-- The events of establishment `estId` currently flagged active. -/
def activeEventsFor (s : Store) (estId : Nat) : List Event :=
  s.events.filter (fun e => e.is_active && e.establishment_id == some estId)

/-- Codes of the events owned by `estId` (the `event_codes` list of
`delete_establishment`). -/
def estCodes (s : Store) (estId : Nat) : List String :=
  (s.events.filter (fun e => e.establishment_id == some estId)).map (fun e => e.code)

/-- Ids of the rooms that descend from `estId` through an event code. -/
def descRoomIds (s : Store) (estId : Nat) : List Nat :=
  (s.rooms.filter (fun r => (estCodes s estId).contains r.event_code)).map (fun r => r.id)

/-! ## Concrete stores used by counterexamples and witnesses -/

/-- Store holding one deactivated event inside its date range, with its room. -/
def c2Store : Store :=
  { emptyStore with
    events := [{ id := 20, code := "AAAAAA", establishment_id := some 1, start_date := 0,
                 end_date := 10, number_of_tables := 1, is_active := false,
                 qr_code_data := "q", created_at := 0 }],
    rooms := [{ id := 30, name := "Evento AAAAAA", is_active := false,
                event_code := "AAAAAA", created_at := 0 }] }

/-- Store holding one inactive room with one table. -/
def c5Store : Store :=
  { emptyStore with
    rooms := [{ id := 1, name := "r", is_active := false, event_code := "AAAAAA", created_at := 0 }],
    tables := [{ id := 100, room_id := 1, number := 1 }] }

/-- Store holding one inactive room paired with an inactive event. -/
def c9Store : Store :=
  { emptyStore with
    events := [{ id := 20, code := "AAAAAA", establishment_id := some 1, start_date := 0,
                 end_date := 100, number_of_tables := 1, is_active := false,
                 qr_code_data := "q", created_at := 0 }],
    rooms := [{ id := 30, name := "Evento AAAAAA", is_active := false,
                event_code := "AAAAAA", created_at := 0 }] }

/-- `c9Store` after `activate_room` on room 30. -/
def c9Post : Store :=
  { c9Store with
    rooms := [{ id := 30, name := "Evento AAAAAA", is_active := true,
                event_code := "AAAAAA", created_at := 0 }] }

/-- Store with one active room, two tables in it, and one sent note between them. -/
def c10Store : Store :=
  { emptyStore with
    rooms := [{ id := 1, name := "r", is_active := false, event_code := "AAAAAA", created_at := 0 }],
    tables := [{ id := 100, room_id := 1, number := 1 }, { id := 101, room_id := 1, number := 2 }],
    notes := [{ id := 7, room_id := 1, from_table_id := 100, to_table_id := 101,
                message := "hi", status := NoteStatus.sent, is_anonymous := true, created_at := 0 }] }

/-- Store with one active event and its active room, used by the
deactivation witness. -/
def c6Store : Store :=
  { emptyStore with
    events := [{ id := 20, code := "AAAAAA", establishment_id := some 1, start_date := 0,
                 end_date := 100, number_of_tables := 1, is_active := true,
                 qr_code_data := "q", created_at := 0 }],
    rooms := [{ id := 30, name := "Evento AAAAAA", is_active := true,
                event_code := "AAAAAA", created_at := 0 }] }

/-- Store with one active room, two tables and one already-sent note,
used by the quota witness. -/
def c4Store : Store :=
  { emptyStore with
    rooms := [{ id := 1, name := "r", is_active := true, event_code := "AAAAAA", created_at := 0 }],
    tables := [{ id := 100, room_id := 1, number := 1 }, { id := 101, room_id := 1, number := 2 }],
    notes := [{ id := 7, room_id := 1, from_table_id := 100, to_table_id := 101,
                message := "hi", status := NoteStatus.sent, is_anonymous := true, created_at := 0 }] }

/-- Store with two active rooms and one table in each, used by the
same-table / cross-room witness. -/
def c5WStore : Store :=
  { emptyStore with
    rooms := [{ id := 1, name := "r1", is_active := true, event_code := "AAAAAA", created_at := 0 },
              { id := 2, name := "r2", is_active := true, event_code := "BBBBBB", created_at := 0 }],
    tables := [{ id := 100, room_id := 1, number := 1 }, { id := 101, room_id := 2, number := 1 }] }

/-- Request from table 100 to table 101. -/
def reqTo101 : NoteCreate :=
  { from_table_id := 100, to_table_id := 101, message := "x", is_anonymous := true }

/-- Request from table 100 to itself. -/
def reqSelf : NoteCreate :=
  { from_table_id := 100, to_table_id := 100, message := "x", is_anonymous := true }

/-- `c6Store` after the owner deactivates event 20. -/
def c6Post : Store :=
  { c6Store with
    events := [{ id := 20, code := "AAAAAA", establishment_id := some 1, start_date := 0,
                 end_date := 100, number_of_tables := 1, is_active := false,
                 qr_code_data := "q", created_at := 0 }],
    rooms := [{ id := 30, name := "Evento AAAAAA", is_active := false,
                event_code := "AAAAAA", created_at := 0 }] }

/-- Result of creating one event in the empty store. -/
def c1w : Store :=
  { emptyStore with
    events := [{ id := 20, code := "AAAAAA", establishment_id := some 1, start_date := 0,
                 end_date := 100, number_of_tables := 1, is_active := true,
                 qr_code_data := "q", created_at := 0 }],
    rooms := [{ id := 30, name := "Evento AAAAAA", is_active := true,
                event_code := "AAAAAA", created_at := 0 }],
    tables := [{ id := 40, room_id := 30, number := 1 }] }

/-- Intermediate stores of the run that defeats the global
one-active-event-per-establishment invariant. -/
def c1s1 : Store :=
  { emptyStore with establishments := [{ id := 1, name := "A", created_at := 0 }] }

/-- Second establishment added. -/
def c1s2 : Store :=
  { c1s1 with establishments := c1s1.establishments ++ [{ id := 2, name := "B", created_at := 0 }] }

/-- Admin of establishment 1 added. -/
def c1s3 : Store :=
  { c1s2 with admins := [{ id := 10, username := "a", password_hash := "h",
                           establishment_id := 1, created_at := 0 }] }

/-- Admin of establishment 2 added. -/
def c1s4 : Store :=
  { c1s3 with admins := c1s3.admins ++
      [{ id := 11, username := "b", password_hash := "h", establishment_id := 2, created_at := 0 }] }

/-- Active event of establishment 1 created. -/
def c1s5 : Store :=
  { c1s4 with
    events := [{ id := 20, code := "AAAAAA", establishment_id := some 1, start_date := 0,
                 end_date := 100, number_of_tables := 1, is_active := true,
                 qr_code_data := "q", created_at := 0 }],
    rooms := [{ id := 30, name := "Evento AAAAAA", is_active := true,
                event_code := "AAAAAA", created_at := 0 }],
    tables := [{ id := 40, room_id := 30, number := 1 }] }

/-- Active event of establishment 2 created. -/
def c1s6 : Store :=
  { c1s5 with
    events := c1s5.events ++
      [{ id := 21, code := "BBBBBB", establishment_id := some 2, start_date := 0,
         end_date := 100, number_of_tables := 1, is_active := true,
         qr_code_data := "q", created_at := 0 }],
    rooms := c1s5.rooms ++
      [{ id := 31, name := "Evento BBBBBB", is_active := true,
         event_code := "BBBBBB", created_at := 0 }],
    tables := c1s5.tables ++ [{ id := 50, room_id := 31, number := 1 }] }

/-- `c1s6` after the master moves admin 10 to establishment 2: both active
events now belong to establishment 2. -/
def c1Bad : Store :=
  { c1s6 with
    events := [{ id := 20, code := "AAAAAA", establishment_id := some 2, start_date := 0,
                 end_date := 100, number_of_tables := 1, is_active := true,
                 qr_code_data := "q", created_at := 0 },
               { id := 21, code := "BBBBBB", establishment_id := some 2, start_date := 0,
                 end_date := 100, number_of_tables := 1, is_active := true,
                 qr_code_data := "q", created_at := 0 }],
    admins := [{ id := 10, username := "a", password_hash := "h",
                 establishment_id := 2, created_at := 0 },
               { id := 11, username := "b", password_hash := "h",
                 establishment_id := 2, created_at := 0 }] }

/-- Two-tenant store exercised by the cascading-delete witness. -/
def c8Store : Store :=
  { establishments := [{ id := 1, name := "A", created_at := 0 },
                       { id := 2, name := "B", created_at := 0 }],
    admins := [{ id := 10, username := "a", password_hash := "h",
                 establishment_id := 1, created_at := 0 },
               { id := 11, username := "b", password_hash := "h",
                 establishment_id := 2, created_at := 0 }],
    events := [{ id := 20, code := "AAAAAA", establishment_id := some 1, start_date := 0,
                 end_date := 100, number_of_tables := 1, is_active := true,
                 qr_code_data := "q", created_at := 0 },
               { id := 21, code := "BBBBBB", establishment_id := some 2, start_date := 0,
                 end_date := 100, number_of_tables := 1, is_active := true,
                 qr_code_data := "q", created_at := 0 }],
    rooms := [{ id := 30, name := "r1", is_active := true, event_code := "AAAAAA", created_at := 0 },
              { id := 31, name := "r2", is_active := true, event_code := "BBBBBB", created_at := 0 }],
    tables := [{ id := 40, room_id := 30, number := 1 }, { id := 50, room_id := 31, number := 1 }],
    users := [{ id := 60, nickname := "u", table_id := 40, room_id := 30, created_at := 0 },
              { id := 61, nickname := "v", table_id := 50, room_id := 31, created_at := 0 }],
    notes := [{ id := 70, room_id := 30, from_table_id := 40, to_table_id := 40,
                message := "m", status := NoteStatus.sent, is_anonymous := true, created_at := 0 },
              { id := 71, room_id := 31, from_table_id := 50, to_table_id := 50,
                message := "m", status := NoteStatus.sent, is_anonymous := true, created_at := 0 }] }

/-- `c8Store` after establishment 1 and everything descending from it is
deleted. -/
def c8Post : Store :=
  { establishments := [{ id := 2, name := "B", created_at := 0 }],
    admins := [{ id := 11, username := "b", password_hash := "h",
                 establishment_id := 2, created_at := 0 }],
    events := [{ id := 21, code := "BBBBBB", establishment_id := some 2, start_date := 0,
                 end_date := 100, number_of_tables := 1, is_active := true,
                 qr_code_data := "q", created_at := 0 }],
    rooms := [{ id := 31, name := "r2", is_active := true, event_code := "BBBBBB", created_at := 0 }],
    tables := [{ id := 50, room_id := 31, number := 1 }],
    users := [{ id := 61, nickname := "v", table_id := 50, room_id := 31, created_at := 0 }],
    notes := [{ id := 71, room_id := 31, from_table_id := 50, to_table_id := 50,
                message := "m", status := NoteStatus.sent, is_anonymous := true, created_at := 0 }] }

/-- Store holding one already-accepted note. -/
def c3Store : Store :=
  { emptyStore with
    notes := [{ id := 7, room_id := 1, from_table_id := 100, to_table_id := 101,
                message := "hi", status := NoteStatus.accepted, is_anonymous := true,
                created_at := 0 }] }

/-! ## Proofs -/

theorem getD_mem_of_lt : ∀ (l : List Char) (n : Nat) (d : Char), n < l.length → l.getD n d ∈ l
  | [], _, _, h => absurd h (by simp)
  | c :: _, 0, _, _ => List.mem_cons_self _ _
  | _ :: rest, n + 1, d, h =>
    List.mem_cons_of_mem _ (getD_mem_of_lt rest n d (Nat.lt_of_succ_lt_succ h))

theorem drawChar_mem (r : Nat) : drawChar r ∈ codeAlphabet := by
  have hlen : codeAlphabet.length = 36 := by decide
  exact getD_mem_of_lt codeAlphabet (r % 36) 'A' (by rw [hlen]; exact Nat.mod_lt _ (by omega))

theorem drawCode_length (rng : Nat → Nat) (i : Nat) : (drawCode rng i).length = 6 := by
  show ((List.range 6).map (fun j => drawChar (rng (6 * i + j)))).length = 6
  simp

theorem drawCode_chars (rng : Nat → Nat) (i : Nat) :
    ∀ c ∈ (drawCode rng i).toList, c ∈ codeAlphabet := by
  intro c hc
  have hc' : c ∈ (List.range 6).map (fun j => drawChar (rng (6 * i + j))) := hc
  obtain ⟨j, _, rfl⟩ := List.mem_map.mp hc'
  exact drawChar_mem _

theorem generate_event_code_from_spec (s : Store) (rng : Nat → Nat) :
    ∀ (fuel i : Nat) (code : String), generate_event_code_from s rng fuel i = some code →
      (∃ j, code = drawCode rng j) ∧ ∀ e ∈ s.events, e.code ≠ code := by
  intro fuel
  induction fuel with
  | zero => intro i code h; simp [generate_event_code_from] at h
  | succ fuel ih =>
    intro i code h
    simp only [generate_event_code_from] at h
    cases hf : s.events.find? (fun e => e.code == drawCode rng i) with
    | some e => rw [hf] at h; exact ih (i + 1) code h
    | none =>
      rw [hf] at h
      cases h
      refine ⟨⟨i, rfl⟩, ?_⟩
      intro e he
      have := List.find?_eq_none.mp hf e he
      simpa using this

/-- C7: every code the generator returns is exactly six characters long,
each drawn from the uppercase alphanumeric alphabet, and differs from the
code of every event already in the store. -/
theorem C7_generate_code_spec (s : Store) (rng : Nat → Nat) (fuel : Nat) (code : String)
    (h : generate_event_code s rng fuel = some code) :
    code.length = 6 ∧ (∀ c ∈ code.toList, c ∈ codeAlphabet) ∧
      ∀ e ∈ s.events, e.code ≠ code := by
  obtain ⟨⟨j, rfl⟩, hfresh⟩ := generate_event_code_from_spec s rng fuel 0 code h
  exact ⟨drawCode_length rng j, drawCode_chars rng j, hfresh⟩

/-- Witness for C7 at the empty store with a constant draw stream. -/
theorem C7_generate_code_spec_witness :
    ("AAAAAA" : String).length = 6 ∧ (∀ c ∈ ("AAAAAA" : String).toList, c ∈ codeAlphabet) ∧
      ∀ e ∈ emptyStore.events, e.code ≠ "AAAAAA" :=
  C7_generate_code_spec emptyStore (fun _ => 0) 1 "AAAAAA" rfl

/-- C2 counterexample: a deactivated event inside its date range still
validates, so validity does not require `is_active`. -/
theorem C2_counterexample :
    validate_event_code c2Store 5 "AAAAAA" =
      Except.ok { code := "AAAAAA", room_id := 30, room_name := "Evento AAAAAA" }
    ∧ c2Store.events.all (fun e => !e.is_active) = true := by
  constructor
  · decide
  · decide

/-- C2 amended: `validate_event_code` ignores `is_active`; it fails
`invalidCode` when no event carries the upper-cased code, `notStarted`
before `start_date`, `expired` after `end_date`, and otherwise succeeds
with the first room carrying the code (failing `roomNotFound` when there
is none). -/
theorem C2_validate_amended (s : Store) (now : Int) (code : String) :
    (s.events.find? (fun e => e.code == strUpper code) = none →
      validate_event_code s now code = Except.error ValidateError.invalidCode)
    ∧ (∀ ev, s.events.find? (fun e => e.code == strUpper code) = some ev →
        now < ev.start_date →
        validate_event_code s now code = Except.error ValidateError.notStarted)
    ∧ (∀ ev, s.events.find? (fun e => e.code == strUpper code) = some ev →
        ev.start_date ≤ now → ev.end_date < now →
        validate_event_code s now code = Except.error ValidateError.expired)
    ∧ (∀ ev, s.events.find? (fun e => e.code == strUpper code) = some ev →
        ev.start_date ≤ now → now ≤ ev.end_date →
        (∀ rm, s.rooms.find? (fun r => r.event_code == strUpper code) = some rm →
          validate_event_code s now code =
            Except.ok { code := ev.code, room_id := rm.id, room_name := rm.name })
        ∧ (s.rooms.find? (fun r => r.event_code == strUpper code) = none →
          validate_event_code s now code = Except.error ValidateError.roomNotFound)) := by
  refine ⟨?_, ?_, ?_, ?_⟩
  · intro hnone; unfold validate_event_code; rw [hnone]
  · intro ev hev hlt; unfold validate_event_code; rw [hev]
    have h1 : ¬(ev.start_date ≤ now ∧ now ≤ ev.end_date) := by omega
    simp only [if_neg h1, if_pos hlt]
  · intro ev hev hle hgt; unfold validate_event_code; rw [hev]
    have h1 : ¬(ev.start_date ≤ now ∧ now ≤ ev.end_date) := by omega
    have h2 : ¬(now < ev.start_date) := by omega
    simp only [if_neg h1, if_neg h2]
  · intro ev hev h1 h2
    constructor
    · intro rm hrm; unfold validate_event_code; rw [hev]
      simp only [if_pos (And.intro h1 h2)]; rw [hrm]
    · intro hnone; unfold validate_event_code; rw [hev]
      simp only [if_pos (And.intro h1 h2)]; rw [hnone]

/-- Witness for C2's amended theorem at `c2Store`. -/
theorem C2_validate_amended_witness :
    validate_event_code c2Store 5 "AAAAAA" =
      Except.ok { code := "AAAAAA", room_id := 30, room_name := "Evento AAAAAA" } :=
  ((C2_validate_amended c2Store 5 "AAAAAA").2.2.2
      { id := 20, code := "AAAAAA", establishment_id := some 1, start_date := 0,
        end_date := 10, number_of_tables := 1, is_active := false,
        qr_code_data := "q", created_at := 0 } (by decide) (by decide) (by decide)).1
    { id := 30, name := "Evento AAAAAA", is_active := false,
      event_code := "AAAAAA", created_at := 0 } (by decide)

/-- C10: responding to a sent note never consults the note's room, so it
succeeds even when every room holding it is inactive. -/
theorem C10_respond_ignores_room (s : Store) (nid : Nat) (n : Note)
    (hfind : s.notes.find? (fun m => m.id == nid) = some n)
    (hsent : n.status = NoteStatus.sent)
    (hroom : ∀ r ∈ s.rooms, r.id = n.room_id → r.is_active = false) :
    accept_note s nid =
      Except.ok ({ s with notes := setNoteStatus s.notes nid NoteStatus.accepted },
                 { n with status := NoteStatus.accepted })
    ∧ ignore_note s nid =
      Except.ok ({ s with notes := setNoteStatus s.notes nid NoteStatus.ignored },
                 { n with status := NoteStatus.ignored }) := by
  unfold accept_note ignore_note
  rw [hfind]
  simp [hsent]

/-- Witness for C10: the note's room in `c10Store` is inactive and both
responses still succeed. -/
theorem C10_respond_ignores_room_witness :
    accept_note c10Store 7 =
      Except.ok ({ c10Store with notes := setNoteStatus c10Store.notes 7 NoteStatus.accepted },
                 { id := 7, room_id := 1, from_table_id := 100, to_table_id := 101,
                   message := "hi", status := NoteStatus.accepted, is_anonymous := true,
                   created_at := 0 })
    ∧ ignore_note c10Store 7 =
      Except.ok ({ c10Store with notes := setNoteStatus c10Store.notes 7 NoteStatus.ignored },
                 { id := 7, room_id := 1, from_table_id := 100, to_table_id := 101,
                   message := "hi", status := NoteStatus.ignored, is_anonymous := true,
                   created_at := 0 }) :=
  C10_respond_ignores_room c10Store 7
    { id := 7, room_id := 1, from_table_id := 100, to_table_id := 101,
      message := "hi", status := NoteStatus.sent, is_anonymous := true, created_at := 0 }
    (by decide) (by decide) (by decide)

/-- C4: once a table's lifetime sent count reaches the configured maximum,
a send passing all earlier checks fails with the rate limit; below the
maximum the rate limit can never fire. -/
theorem C4_note_quota :
    (∀ (s : Store) (maxNotes : Nat) (req : NoteCreate) (nid : Nat) (t : Int)
        (ft tt : Table) (rm : Room),
      s.tables.find? (fun tb => tb.id == req.from_table_id) = some ft →
      s.tables.find? (fun tb => tb.id == req.to_table_id) = some tt →
      s.rooms.find? (fun r => r.id == ft.room_id) = some rm →
      rm.is_active = true →
      ft.room_id = tt.room_id →
      req.from_table_id ≠ req.to_table_id →
      maxNotes ≤ (s.notes.filter (fun n => n.from_table_id == req.from_table_id)).length →
      create_note s maxNotes req nid t = Except.error CreateNoteError.rateLimited)
    ∧ (∀ (s : Store) (maxNotes : Nat) (req : NoteCreate) (nid : Nat) (t : Int),
      (s.notes.filter (fun n => n.from_table_id == req.from_table_id)).length < maxNotes →
      create_note s maxNotes req nid t ≠ Except.error CreateNoteError.rateLimited) := by
  constructor
  · intro s maxNotes req nid t ft tt rm hft htt hrm hact hsame hne hq
    unfold create_note
    rw [hft, htt]
    dsimp only
    rw [hrm]
    simp [hact, hsame, hne, hq]
  · intro s maxNotes req nid t hlt hcontra
    unfold create_note at hcontra
    cases hft : s.tables.find? (fun tb => tb.id == req.from_table_id) with
    | none => rw [hft] at hcontra; simp at hcontra
    | some ft =>
      cases htt : s.tables.find? (fun tb => tb.id == req.to_table_id) with
      | none => rw [hft, htt] at hcontra; simp at hcontra
      | some tt =>
        rw [hft, htt] at hcontra
        dsimp only at hcontra
        cases hrm : s.rooms.find? (fun r => r.id == ft.room_id) with
        | none => rw [hrm] at hcontra; simp at hcontra
        | some rm =>
          rw [hrm] at hcontra
          dsimp only at hcontra
          by_cases h1 : rm.is_active = false
          · simp [h1] at hcontra
          · rw [if_neg h1] at hcontra
            by_cases h2 : ft.room_id ≠ tt.room_id
            · simp [h2] at hcontra
            · rw [if_neg h2] at hcontra
              by_cases h3 : req.from_table_id = req.to_table_id
              · simp [h3] at hcontra
              · rw [if_neg h3] at hcontra
                rw [if_neg (by omega)] at hcontra
                simp at hcontra

/-- Witness for C4 at `c4Store`: with the quota set to 1 the second send
is rate limited, with the default 10 it is not. -/
theorem C4_note_quota_witness :
    create_note c4Store 1 reqTo101 8 1 = Except.error CreateNoteError.rateLimited
    ∧ create_note c4Store 10 reqTo101 8 1 ≠ Except.error CreateNoteError.rateLimited :=
  ⟨C4_note_quota.1 c4Store 1 reqTo101 8 1
      { id := 100, room_id := 1, number := 1 } { id := 101, room_id := 1, number := 2 }
      { id := 1, name := "r", is_active := true, event_code := "AAAAAA", created_at := 0 }
      (by decide) (by decide) (by decide) (by decide) (by decide) (by decide) (by decide),
   C4_note_quota.2 c4Store 10 reqTo101 8 1 (by decide)⟩

/-- C5 counterexample: a same-table send inside an inactive room fails
with the room-closed 403, not with the same-table 400 the claim promises
for every existing table. -/
theorem C5_counterexample :
    create_note c5Store 10 reqSelf 9 0 = Except.error CreateNoteError.roomClosed
    ∧ create_note c5Store 10 reqSelf 9 0 ≠ Except.error CreateNoteError.sameTable := by
  constructor
  · decide
  · decide

/-- C5 amended: provided the sender's room exists and is active, a
same-table send fails with the same-table 400 and a cross-room send fails
with the different-rooms 400; both are errors, so no note is persisted. -/
theorem C5_same_table_cross_room (s : Store) (maxNotes : Nat) (req : NoteCreate)
    (nid : Nat) (t : Int) (ft : Table) (rm : Room)
    (hft : s.tables.find? (fun tb => tb.id == req.from_table_id) = some ft)
    (hrm : s.rooms.find? (fun r => r.id == ft.room_id) = some rm)
    (hact : rm.is_active = true) :
    (req.from_table_id = req.to_table_id →
      create_note s maxNotes req nid t = Except.error CreateNoteError.sameTable)
    ∧ (∀ tt : Table, s.tables.find? (fun tb => tb.id == req.to_table_id) = some tt →
        ft.room_id ≠ tt.room_id →
        create_note s maxNotes req nid t = Except.error CreateNoteError.differentRooms) := by
  constructor
  · intro heq
    have htt : s.tables.find? (fun tb => tb.id == req.to_table_id) = some ft := by
      rw [← heq]; exact hft
    unfold create_note
    rw [hft, htt]
    dsimp only
    rw [hrm]
    simp [hact, heq]
  · intro tt htt hdiff
    unfold create_note
    rw [hft, htt]
    dsimp only
    rw [hrm]
    simp [hact, hdiff]

/-- Witness for C5's amended theorem at `c5WStore`. -/
theorem C5_same_table_cross_room_witness :
    create_note c5WStore 10 reqSelf 9 0 = Except.error CreateNoteError.sameTable
    ∧ create_note c5WStore 10 reqTo101 9 0 = Except.error CreateNoteError.differentRooms :=
  ⟨(C5_same_table_cross_room c5WStore 10 reqSelf 9 0
      { id := 100, room_id := 1, number := 1 }
      { id := 1, name := "r1", is_active := true, event_code := "AAAAAA", created_at := 0 }
      (by decide) (by decide) (by decide)).1 (by decide),
   (C5_same_table_cross_room c5WStore 10 reqTo101 9 0
      { id := 100, room_id := 1, number := 1 }
      { id := 1, name := "r1", is_active := true, event_code := "AAAAAA", created_at := 0 }
      (by decide) (by decide) (by decide)).2
      { id := 101, room_id := 2, number := 1 } (by decide) (by decide)⟩

theorem find?_setEventInactive : ∀ (l : List Event) (eid : Nat) (ev : Event),
    l.find? (fun e => e.id == eid) = some ev →
    (setEventInactive l eid).find? (fun e => e.id == eid) = some { ev with is_active := false }
  | [], _, _, h => by simp at h
  | e :: rest, eid, ev, h => by
    by_cases he : e.id = eid
    · rw [List.find?_cons_of_pos _ (by simp [he])] at h
      cases h
      unfold setEventInactive
      rw [if_pos (by simp [he])]
      exact List.find?_cons_of_pos _ (by simp [he])
    · rw [List.find?_cons_of_neg _ (by simp [he])] at h
      unfold setEventInactive
      rw [if_neg (by simp [he])]
      rw [List.find?_cons_of_neg _ (by simp [he])]
      exact find?_setEventInactive rest eid ev h

theorem setRoomInactiveByCode_all : ∀ (l : List Room) (code : String),
    (l.filter (fun r => r.event_code == code)).length ≤ 1 →
    ∀ r ∈ setRoomInactiveByCode l code, r.event_code = code → r.is_active = false
  | [], _, _, r, hr, _ => by simp [setRoomInactiveByCode] at hr
  | rm :: rest, code, hle, r, hr, hcode => by
    by_cases hc : rm.event_code = code
    · unfold setRoomInactiveByCode at hr
      rw [if_pos (by simp [hc])] at hr
      rcases List.mem_cons.mp hr with h | h
      · subst h; rfl
      · exfalso
        have h0 : (rest.filter (fun x => x.event_code == code)).length = 0 := by
          rw [List.filter_cons_of_pos (by simp [hc])] at hle
          simp only [List.length_cons] at hle
          omega
        have h2 : r ∈ rest.filter (fun x => x.event_code == code) :=
          List.mem_filter.mpr ⟨h, by simp [hcode]⟩
        rw [List.length_eq_zero] at h0
        rw [h0] at h2
        simp at h2
    · unfold setRoomInactiveByCode at hr
      rw [if_neg (by simp [hc])] at hr
      rcases List.mem_cons.mp hr with h | h
      · subst h; exact absurd hcode hc
      · have hle' : (rest.filter (fun x => x.event_code == code)).length ≤ 1 := by
          rw [List.filter_cons_of_neg (by simp [hc])] at hle
          exact hle
        exact setRoomInactiveByCode_all rest code hle' r h hcode

/-- C6: deactivation of an existing event fails with the 403 (not the 404)
exactly when the event's establishment differs from the caller's; on a
match it clears the event's flag and the flag of the room carrying the
event's code. -/
theorem C6_deactivate_tenant_check (s : Store) (eid estId : Nat) (ev : Event)
    (hfind : s.events.find? (fun e => e.id == eid) = some ev) :
    (ev.establishment_id ≠ some estId →
      deactivate_event s eid estId = Except.error DeactivateError.forbidden)
    ∧ (ev.establishment_id = some estId →
      deactivate_event s eid estId =
        Except.ok { s with events := setEventInactive s.events eid,
                           rooms := setRoomInactiveByCode s.rooms ev.code }
      ∧ (setEventInactive s.events eid).find? (fun e => e.id == eid) =
          some { ev with is_active := false }
      ∧ ((s.rooms.filter (fun r => r.event_code == ev.code)).length ≤ 1 →
          ∀ r ∈ setRoomInactiveByCode s.rooms ev.code,
            r.event_code = ev.code → r.is_active = false)) := by
  constructor
  · intro hne
    unfold deactivate_event
    rw [hfind]
    simp [hne]
  · intro heq
    refine ⟨?_, find?_setEventInactive s.events eid ev hfind,
            fun hle => setRoomInactiveByCode_all s.rooms ev.code hle⟩
    unfold deactivate_event
    rw [hfind]
    simp [heq]

/-- Witness for C6 at `c6Store`: a foreign admin gets the 403, the owner
deactivates event and room. -/
theorem C6_deactivate_tenant_check_witness :
    deactivate_event c6Store 20 2 = Except.error DeactivateError.forbidden
    ∧ deactivate_event c6Store 20 1 =
        Except.ok { c6Store with events := setEventInactive c6Store.events 20,
                                 rooms := setRoomInactiveByCode c6Store.rooms "AAAAAA" } :=
  ⟨(C6_deactivate_tenant_check c6Store 20 2
      { id := 20, code := "AAAAAA", establishment_id := some 1, start_date := 0,
        end_date := 100, number_of_tables := 1, is_active := true,
        qr_code_data := "q", created_at := 0 } (by decide)).1 (by decide),
   ((C6_deactivate_tenant_check c6Store 20 1
      { id := 20, code := "AAAAAA", establishment_id := some 1, start_date := 0,
        end_date := 100, number_of_tables := 1, is_active := true,
        qr_code_data := "q", created_at := 0 } (by decide)).2 rfl).1⟩

theorem filter_active_nil (l : List Room) (hall : ∀ r ∈ l, r.is_active = false) :
    l.filter (fun r => r.is_active) = [] := by
  rw [List.filter_eq_nil_iff]
  intro r hr
  simp [hall r hr]

theorem setRoomActive_active_ids : ∀ (l : List Room) (rid : Nat),
    (∀ r ∈ l, r.is_active = false) → (∃ r ∈ l, r.id = rid) →
    ((setRoomActive l rid).filter (fun r => r.is_active)).map (fun r => r.id) = [rid]
  | [], _, _, hex => by simp at hex
  | rm :: rest, rid, hall, hex => by
    by_cases h : rm.id = rid
    · unfold setRoomActive
      rw [if_pos (by simp [h])]
      have hrest : rest.filter (fun r => r.is_active) = [] :=
        filter_active_nil rest (fun r hr => hall r (List.mem_cons_of_mem _ hr))
      rw [List.filter_cons_of_pos (by simp)]
      rw [hrest]
      simp [h]
    · unfold setRoomActive
      rw [if_neg (by simp [h])]
      have hhead : rm.is_active = false := hall rm (List.mem_cons_self _ _)
      have hex' : ∃ r ∈ rest, r.id = rid := by
        rcases hex with ⟨r, hr, hid⟩
        rcases List.mem_cons.mp hr with rfl | hr'
        · exact absurd hid h
        · exact ⟨r, hr', hid⟩
      rw [List.filter_cons_of_neg (by simp [hhead])]
      exact setRoomActive_active_ids rest rid (fun r hr => hall r (List.mem_cons_of_mem _ hr)) hex'

/-- C9: a successful `activate_room` leaves its target as the only active
room in the whole store, and it never reads the events table, so (as the
concrete instance shows) the activated room's event may be inactive. -/
theorem C9_activate_room_exclusive :
    (∀ (s : Store) (rid : Nat) (s' : Store), activate_room s rid = Except.ok s' →
      ((s'.rooms.filter (fun r => r.is_active)).map (fun r => r.id) = [rid])
      ∧ s'.events = s.events ∧ s'.tables = s.tables ∧ s'.users = s.users ∧ s'.notes = s.notes)
    ∧ (activate_room c9Store 30 = Except.ok c9Post
       ∧ (∀ e ∈ c9Store.events, e.is_active = false)
       ∧ (∃ r ∈ c9Post.rooms, r.id = 30 ∧ r.is_active = true)
       ∧ c9Post.events = c9Store.events) := by
  constructor
  · intro s rid s' h
    unfold activate_room at h
    cases hf : s.rooms.find? (fun r => r.id == rid) with
    | none => rw [hf] at h; exact absurd h (by simp)
    | some r0 =>
      rw [hf] at h
      cases h
      refine ⟨?_, rfl, rfl, rfl, rfl⟩
      apply setRoomActive_active_ids
      · intro r hr
        obtain ⟨r1, _, rfl⟩ := List.mem_map.mp hr
        rfl
      · have hmem := List.mem_of_find?_eq_some hf
        have hid : r0.id = rid := by
          have := List.find?_some hf
          simpa using this
        exact ⟨{ r0 with is_active := false }, List.mem_map_of_mem _ hmem, hid⟩
  · exact ⟨by decide, by decide, by decide, by decide⟩

/-- Witness for C9's universal part at `c9Store`. -/
theorem C9_activate_room_exclusive_witness :
    ((c9Post.rooms.filter (fun r => r.is_active)).map (fun r => r.id) = [30])
    ∧ c9Post.events = c9Store.events ∧ c9Post.tables = c9Store.tables
    ∧ c9Post.users = c9Store.users ∧ c9Post.notes = c9Store.notes :=
  C9_activate_room_exclusive.1 c9Store 30 c9Post (by decide)

theorem filter_map_length (l : List Event) (f : Event → Event) (p : Event → Bool)
    (hp : ∀ e ∈ l, p (f e) = p e) : ((l.map f).filter p).length = (l.filter p).length := by
  induction l with
  | nil => rfl
  | cons e rest ih =>
    have ih' := ih (fun x hx => hp x (List.mem_cons_of_mem _ hx))
    simp only [List.map_cons, List.filter_cons]
    rw [hp e (List.mem_cons_self _ _)]
    cases hpe : p e
    · simpa [hpe] using ih'
    · simpa [hpe] using ih'

theorem length_filter_setEventInactive_le (l : List Event) (eid : Nat) (p : Event → Bool)
    (hp : ∀ e : Event, p ({ e with is_active := false } : Event) = false) :
    ((setEventInactive l eid).filter p).length ≤ (l.filter p).length := by
  induction l with
  | nil => simp [setEventInactive]
  | cons e rest ih =>
    unfold setEventInactive
    by_cases h : e.id = eid
    · rw [if_pos (by simp [h])]
      have hfd : List.filter p (({ e with is_active := false } : Event) :: rest)
          = List.filter p rest := by
        rw [List.filter_cons, hp e]
        simp
      rw [hfd, List.filter_cons]
      cases hpe : p e <;> simp
    · rw [if_neg (by simp [h])]
      rw [List.filter_cons, List.filter_cons]
      cases hpe : p e
      · simpa using ih
      · simpa using ih

/-- C1 amended: `create_event` and `deactivate_event` both preserve (and
`create_event` re-establishes for the acting establishment) the bound of at
most one active event per establishment; the bound is not an invariant of
every reachable store state, as the counterexample run through
`update_admin_user` shows. -/
theorem C1_one_active_preserved :
    (∀ (s : Store) (estId : Nat) (sd ed : Int) (n : Nat) (rng : Nat → Nat) (fuel : Nat)
        (qr : String) (eid rid tb : Nat) (t : Int) (s' : Store) (E : Nat),
      create_event s estId sd ed n rng fuel qr eid rid tb t = some (Except.ok s') →
      (activeEventsFor s E).length ≤ 1 → (activeEventsFor s' E).length ≤ 1)
    ∧ (∀ (s : Store) (eid estId : Nat) (s' : Store) (E : Nat),
      deactivate_event s eid estId = Except.ok s' →
      (activeEventsFor s E).length ≤ 1 → (activeEventsFor s' E).length ≤ 1) := by
  constructor
  · intro s estId sd ed n rng fuel qr eid rid tb t s' E h hpre
    simp only [create_event] at h
    split at h
    · simp at h
    · split at h
      · simp at h
      · split at h
        · simp at h
        · injection h with h1
          injection h1 with h2
          subst h2
          unfold activeEventsFor at hpre ⊢
          simp only [List.filter_append, List.length_append]
          by_cases hE : E = estId
          · subst hE
            have h1 : ((s.events.map (fun e =>
                if e.is_active && e.establishment_id == some E then
                  { e with is_active := false } else e)).filter
                  (fun e => e.is_active && e.establishment_id == some E)) = [] := by
              rw [List.filter_eq_nil_iff]
              intro x hx
              obtain ⟨e, _, rfl⟩ := List.mem_map.mp hx
              by_cases hc : (e.is_active && e.establishment_id == some E) = true
              · simp [hc]
              · rw [if_neg hc]
                simpa using hc
            rw [h1]
            simp
          · have hne : estId ≠ E := fun hh => hE hh.symm
            have hlen : ((s.events.map (fun e =>
                if e.is_active && e.establishment_id == some estId then
                  { e with is_active := false } else e)).filter
                  (fun e => e.is_active && e.establishment_id == some E)).length
                = (s.events.filter (fun e => e.is_active && e.establishment_id == some E)).length := by
              apply filter_map_length
              intro e _
              by_cases hc : (e.is_active && e.establishment_id == some estId) = true
              · rw [if_pos hc]
                have heid : e.establishment_id = some estId := by
                  have := hc
                  simp at this
                  exact this.2
                simp [heid, hne]
              · rw [if_neg hc]
            rw [hlen]
            simpa [hne] using hpre
  · intro s eid estId s' E h hpre
    unfold deactivate_event at h
    cases hf : s.events.find? (fun e => e.id == eid) with
    | none => rw [hf] at h; simp at h
    | some ev =>
      rw [hf] at h
      dsimp only at h
      split at h
      · injection h with h1
        subst h1
        unfold activeEventsFor at hpre ⊢
        exact le_trans
          (length_filter_setEventInactive_le s.events eid _ (by intro e; simp)) hpre
      · simp at h

/-- Witness for C1's amended theorem: creating the first event of
establishment 1 and deactivating event 20 both leave at most one active
event for establishment 1. -/
theorem C1_one_active_preserved_witness :
    (activeEventsFor c1w 1).length ≤ 1 ∧ (activeEventsFor c6Post 1).length ≤ 1 :=
  ⟨C1_one_active_preserved.1 emptyStore 1 0 100 1 (fun _ => 0) 1 "q" 20 30 40 0 c1w 1
      (by decide) (by decide),
   C1_one_active_preserved.2 c6Store 20 1 c6Post 1 (by decide) (by decide)⟩

/-- C1 counterexample: a reachable store (two establishments each create
an active event, then the master moves admin 10 to establishment 2, which
drags establishment 1's active event along) in which establishment 2 has
two active events. -/
theorem C1_counterexample :
    Reachable c1Bad
    ∧ (c1Bad.events.filter (fun e => e.is_active && e.establishment_id == some 2)).length = 2 := by
  constructor
  · exact Reachable.step
      (Reachable.step
        (Reachable.step
          (Reachable.step
            (Reachable.step
              (Reachable.step
                (Reachable.step Reachable.init
                  (Step.estCreated emptyStore 1 "A" 0))
                (Step.estCreated c1s1 2 "B" 0))
              (Step.adminCreated c1s2 10 "a" "h" 1 0 c1s3 (by decide)))
            (Step.adminCreated c1s3 11 "b" "h" 2 0 c1s4 (by decide)))
          (Step.eventCreated c1s4 1 0 100 1 (fun _ => 0) 1 "q" 20 30 40 0 c1s5 (by decide)))
        (Step.eventCreated c1s5 2 0 100 1 (fun _ => 1) 1 "q" 21 31 50 0 c1s6 (by decide)))
      (Step.adminUpdated c1s6 10 none (some 2) c1Bad (by decide))
  · decide

theorem innerFold_fixed : ∀ (l : List Room) (st : Store),
    ((l.foldl (fun acc r => deleteRoomChildren acc r.id) st).rooms = st.rooms)
    ∧ ((l.foldl (fun acc r => deleteRoomChildren acc r.id) st).events = st.events)
    ∧ ((l.foldl (fun acc r => deleteRoomChildren acc r.id) st).admins = st.admins)
    ∧ ((l.foldl (fun acc r => deleteRoomChildren acc r.id) st).establishments = st.establishments)
  | [], _ => ⟨rfl, rfl, rfl, rfl⟩
  | r :: rest, st => by
    rw [List.foldl_cons]
    exact innerFold_fixed rest (deleteRoomChildren st r.id)

theorem innerFold_children : ∀ (l : List Room) (st : Store),
    ((l.foldl (fun acc r => deleteRoomChildren acc r.id) st).notes
      = st.notes.filter (fun n => !((l.map (fun r => r.id)).contains n.room_id)))
    ∧ ((l.foldl (fun acc r => deleteRoomChildren acc r.id) st).users
      = st.users.filter (fun u => !((l.map (fun r => r.id)).contains u.room_id)))
    ∧ ((l.foldl (fun acc r => deleteRoomChildren acc r.id) st).tables
      = st.tables.filter (fun tb => !((l.map (fun r => r.id)).contains tb.room_id)))
  | [], st => by simp
  | r :: rest, st => by
    rw [List.foldl_cons]
    obtain ⟨h1, h2, h3⟩ := innerFold_children rest (deleteRoomChildren st r.id)
    have hba : ∀ a b : Bool, ((!b) && (!a)) = !(a || b) := by decide
    refine ⟨?_, ?_, ?_⟩
    · rw [h1]
      have hd : (deleteRoomChildren st r.id).notes
          = st.notes.filter (fun n => !(n.room_id == r.id)) := rfl
      rw [hd, List.filter_filter]
      apply List.filter_congr
      intro n _
      rw [List.map_cons, List.contains_cons]
      exact hba _ _
    · rw [h2]
      have hd : (deleteRoomChildren st r.id).users
          = st.users.filter (fun u => !(u.room_id == r.id)) := rfl
      rw [hd, List.filter_filter]
      apply List.filter_congr
      intro u _
      rw [List.map_cons, List.contains_cons]
      exact hba _ _
    · rw [h3]
      have hd : (deleteRoomChildren st r.id).tables
          = st.tables.filter (fun tb => !(tb.room_id == r.id)) := rfl
      rw [hd, List.filter_filter]
      apply List.filter_congr
      intro tb _
      rw [List.map_cons, List.contains_cons]
      exact hba _ _

theorem deleteForCode_spec (s : Store) (c : String) :
    ((deleteForCode s c).rooms = s.rooms.filter (fun r => !(r.event_code == c)))
    ∧ ((deleteForCode s c).events = s.events)
    ∧ ((deleteForCode s c).admins = s.admins)
    ∧ ((deleteForCode s c).establishments = s.establishments)
    ∧ ((deleteForCode s c).notes = s.notes.filter (fun n =>
        !(((s.rooms.filter (fun r => r.event_code == c)).map (fun r => r.id)).contains n.room_id)))
    ∧ ((deleteForCode s c).users = s.users.filter (fun u =>
        !(((s.rooms.filter (fun r => r.event_code == c)).map (fun r => r.id)).contains u.room_id)))
    ∧ ((deleteForCode s c).tables = s.tables.filter (fun tb =>
        !(((s.rooms.filter (fun r => r.event_code == c)).map (fun r => r.id)).contains tb.room_id))) := by
  obtain ⟨hr, he, ha, hest⟩ := innerFold_fixed (s.rooms.filter (fun r => r.event_code == c)) s
  obtain ⟨hn, hu, ht⟩ := innerFold_children (s.rooms.filter (fun r => r.event_code == c)) s
  unfold deleteForCode
  exact ⟨by dsimp only; rw [hr], he, ha, hest, hn, hu, ht⟩

theorem contains_roomIds_iff (rooms : List Room) (f : Room → Bool) (x : Nat) :
    (((rooms.filter f).map (fun r => r.id)).contains x = true)
    ↔ ∃ r ∈ rooms, f r = true ∧ r.id = x := by
  constructor
  · intro h
    have hmem : x ∈ (rooms.filter f).map (fun r => r.id) := List.elem_iff.mp h
    obtain ⟨r, hr, hid⟩ := List.mem_map.mp hmem
    have hrf := List.mem_filter.mp hr
    exact ⟨r, hrf.1, hrf.2, hid⟩
  · rintro ⟨r, hr, hf, hid⟩
    exact List.elem_iff.mpr (List.mem_map.mpr ⟨r, List.mem_filter.mpr ⟨hr, hf⟩, hid⟩)

theorem child_pred_combine (rooms : List Room) (c : String) (cs : List String) (x : Nat) :
    ((!((((rooms.filter (fun r => !(r.event_code == c))).filter
          (fun r => cs.contains r.event_code)).map (fun r => r.id)).contains x))
      && (!(((rooms.filter (fun r => r.event_code == c)).map (fun r => r.id)).contains x)))
    = (!(((rooms.filter (fun r => (c :: cs).contains r.event_code)).map
          (fun r => r.id)).contains x)) := by
  have hbool : ∀ (a b : Bool), (a = true ↔ b = true) → a = b := by decide
  apply hbool
  simp only [Bool.and_eq_true, Bool.not_eq_true']
  constructor
  · rintro ⟨hP, hQ⟩
    rw [Bool.eq_false_iff]
    intro hC
    rw [contains_roomIds_iff] at hC
    obtain ⟨r, hr, hfr, hid⟩ := hC
    by_cases hc : (r.event_code == c) = true
    · rw [Bool.eq_false_iff] at hQ
      exact hQ (contains_roomIds_iff rooms _ x |>.mpr ⟨r, hr, hc, hid⟩)
    · rw [Bool.eq_false_iff] at hP
      apply hP
      rw [contains_roomIds_iff]
      refine ⟨r, List.mem_filter.mpr ⟨hr, by simp [hc]⟩, ?_, hid⟩
      rw [List.contains_cons] at hfr
      simp only [Bool.or_eq_true] at hfr
      rcases hfr with hfr | hfr
      · exact absurd hfr hc
      · exact hfr
  · intro hC
    rw [Bool.eq_false_iff] at hC
    constructor
    · rw [Bool.eq_false_iff]
      intro hP
      rw [contains_roomIds_iff] at hP
      obtain ⟨r, hr, hcs, hid⟩ := hP
      have hr' := List.mem_filter.mp hr
      apply hC
      rw [contains_roomIds_iff]
      refine ⟨r, hr'.1, ?_, hid⟩
      rw [List.contains_cons]
      simp only [Bool.or_eq_true]
      exact Or.inr hcs
    · rw [Bool.eq_false_iff]
      intro hQ
      rw [contains_roomIds_iff] at hQ
      obtain ⟨r, hr, hc, hid⟩ := hQ
      apply hC
      rw [contains_roomIds_iff]
      refine ⟨r, hr, ?_, hid⟩
      rw [List.contains_cons]
      simp only [Bool.or_eq_true]
      exact Or.inl hc

theorem outerFold_spec : ∀ (codes : List String) (s : Store),
    ((codes.foldl deleteForCode s).events = s.events)
    ∧ ((codes.foldl deleteForCode s).admins = s.admins)
    ∧ ((codes.foldl deleteForCode s).establishments = s.establishments)
    ∧ ((codes.foldl deleteForCode s).rooms
        = s.rooms.filter (fun r => !(codes.contains r.event_code)))
    ∧ ((codes.foldl deleteForCode s).notes
        = s.notes.filter (fun n =>
          !(((s.rooms.filter (fun r => codes.contains r.event_code)).map
              (fun r => r.id)).contains n.room_id)))
    ∧ ((codes.foldl deleteForCode s).users
        = s.users.filter (fun u =>
          !(((s.rooms.filter (fun r => codes.contains r.event_code)).map
              (fun r => r.id)).contains u.room_id)))
    ∧ ((codes.foldl deleteForCode s).tables
        = s.tables.filter (fun tb =>
          !(((s.rooms.filter (fun r => codes.contains r.event_code)).map
              (fun r => r.id)).contains tb.room_id)))
  | [], s => by simp
  | c :: cs, s => by
    rw [List.foldl_cons]
    obtain ⟨ihe, iha, ihest, ihr, ihn, ihu, iht⟩ := outerFold_spec cs (deleteForCode s c)
    obtain ⟨dr, de, da, dest, dn, du, dt⟩ := deleteForCode_spec s c
    have hba : ∀ a b : Bool, ((!b) && (!a)) = !(a || b) := by decide
    refine ⟨?_, ?_, ?_, ?_, ?_, ?_, ?_⟩
    · rw [ihe, de]
    · rw [iha, da]
    · rw [ihest, dest]
    · rw [ihr, dr, List.filter_filter]
      apply List.filter_congr
      intro r _
      rw [List.contains_cons]
      exact hba _ _
    · rw [ihn, dr, dn, List.filter_filter]
      apply List.filter_congr
      intro n _
      exact child_pred_combine s.rooms c cs n.room_id
    · rw [ihu, dr, du, List.filter_filter]
      apply List.filter_congr
      intro u _
      exact child_pred_combine s.rooms c cs u.room_id
    · rw [iht, dr, dt, List.filter_filter]
      apply List.filter_congr
      intro tb _
      exact child_pred_combine s.rooms c cs tb.room_id

/-- C8: deleting an establishment removes exactly the rows descending from
it — its events, the rooms carrying those events' codes, and the tables,
users and notes of those rooms, plus its admin users and the establishment
row — and leaves every other row in place. -/
theorem C8_delete_establishment (s : Store) (estId : Nat) (s' : Store)
    (h : delete_establishment s estId = Except.ok s') :
    s'.events = s.events.filter (fun e => !(e.establishment_id == some estId))
    ∧ s'.rooms = s.rooms.filter (fun r => !((estCodes s estId).contains r.event_code))
    ∧ s'.tables = s.tables.filter (fun tb => !((descRoomIds s estId).contains tb.room_id))
    ∧ s'.users = s.users.filter (fun u => !((descRoomIds s estId).contains u.room_id))
    ∧ s'.notes = s.notes.filter (fun n => !((descRoomIds s estId).contains n.room_id))
    ∧ s'.admins = s.admins.filter (fun a => !(a.establishment_id == estId))
    ∧ s'.establishments = s.establishments.filter (fun e => !(e.id == estId)) := by
  unfold delete_establishment at h
  cases hf : s.establishments.find? (fun e => e.id == estId) with
  | none => rw [hf] at h; simp at h
  | some est =>
    rw [hf] at h
    dsimp only at h
    injection h with h1
    subst h1
    obtain ⟨he, ha, hest, hr, hn, hu, ht⟩ :=
      outerFold_spec ((s.events.filter (fun e => e.establishment_id == some estId)).map
        (fun e => e.code)) s
    unfold descRoomIds estCodes
    refine ⟨?_, ?_, ?_, ?_, ?_, ?_, ?_⟩
    · dsimp only
      rw [he]
    · dsimp only
      rw [hr]
    · exact ht
    · exact hu
    · exact hn
    · dsimp only
      rw [ha]
    · dsimp only
      rw [hest]

theorem update_establishment_notes (s : Store) (estId : Nat) (nm : String) (s' : Store)
    (h : update_establishment s estId nm = Except.ok s') : s'.notes = s.notes := by
  unfold update_establishment at h
  cases hf : s.establishments.find? (fun e => e.id == estId) with
  | none => rw [hf] at h; simp at h
  | some _ =>
    rw [hf] at h
    dsimp only at h
    injection h with h1
    rw [← h1]

theorem create_admin_user_notes (s : Store) (id : Nat) (u pw : String) (estId : Nat) (t : Int)
    (s' : Store) (h : create_admin_user s id u pw estId t = Except.ok s') :
    s'.notes = s.notes := by
  unfold create_admin_user at h
  cases hf : s.establishments.find? (fun e => e.id == estId) with
  | none => rw [hf] at h; simp at h
  | some _ =>
    rw [hf] at h
    dsimp only at h
    cases hg : s.admins.find? (fun a => a.username == u) with
    | some _ => rw [hg] at h; simp at h
    | none =>
      rw [hg] at h
      dsimp only at h
      injection h with h1
      rw [← h1]

theorem update_admin_establishment_notes (s1 : Store) (adminId oldEst : Nat) (ne : Option Nat)
    (s' : Store) (h : update_admin_establishment s1 adminId oldEst ne = Except.ok s') :
    s'.notes = s1.notes := by
  unfold update_admin_establishment at h
  cases ne with
  | none => injection h with h1; rw [← h1]
  | some eId =>
    dsimp only at h
    split at h
    · injection h with h1; rw [← h1]
    · cases hf : s1.establishments.find? (fun est => est.id == eId) with
      | none => rw [hf] at h; simp at h
      | some _ =>
        rw [hf] at h
        dsimp only at h
        injection h with h1
        rw [← h1]

theorem update_admin_user_notes (s : Store) (adminId : Nat) (nu : Option String)
    (ne : Option Nat) (s' : Store) (h : update_admin_user s adminId nu ne = Except.ok s') :
    s'.notes = s.notes := by
  unfold update_admin_user at h
  cases hf : s.admins.find? (fun a => a.id == adminId) with
  | none => rw [hf] at h; simp at h
  | some adm =>
    rw [hf] at h
    dsimp only at h
    cases nu with
    | none => exact update_admin_establishment_notes s adminId adm.establishment_id ne s' h
    | some u =>
      dsimp only at h
      split at h
      · exact update_admin_establishment_notes s adminId adm.establishment_id ne s' h
      · split at h
        · simp at h
        · exact update_admin_establishment_notes
            { s with admins := setAdminUsername s.admins adminId u }
            adminId adm.establishment_id ne s' h

theorem update_admin_password_notes (s : Store) (adminId : Nat) (pw : String) (s' : Store)
    (h : update_admin_password s adminId pw = Except.ok s') : s'.notes = s.notes := by
  unfold update_admin_password at h
  cases hf : s.admins.find? (fun a => a.id == adminId) with
  | none => rw [hf] at h; simp at h
  | some _ =>
    rw [hf] at h
    dsimp only at h
    injection h with h1
    rw [← h1]

theorem delete_admin_user_notes (s : Store) (adminId : Nat) (s' : Store)
    (h : delete_admin_user s adminId = Except.ok s') : s'.notes = s.notes := by
  unfold delete_admin_user at h
  cases hf : s.admins.find? (fun a => a.id == adminId) with
  | none => rw [hf] at h; simp at h
  | some _ =>
    rw [hf] at h
    dsimp only at h
    injection h with h1
    rw [← h1]

theorem create_event_notes (s : Store) (estId : Nat) (sd ed : Int) (n : Nat) (rng : Nat → Nat)
    (fuel : Nat) (qr : String) (eid rid tb : Nat) (t : Int) (s' : Store)
    (h : create_event s estId sd ed n rng fuel qr eid rid tb t = some (Except.ok s')) :
    s'.notes = s.notes := by
  simp only [create_event] at h
  split at h
  · simp at h
  · split at h
    · simp at h
    · split at h
      · simp at h
      · injection h with h1
        injection h1 with h2
        rw [← h2]

theorem deactivate_event_notes (s : Store) (eid estId : Nat) (s' : Store)
    (h : deactivate_event s eid estId = Except.ok s') : s'.notes = s.notes := by
  unfold deactivate_event at h
  cases hf : s.events.find? (fun e => e.id == eid) with
  | none => rw [hf] at h; simp at h
  | some ev =>
    rw [hf] at h
    dsimp only at h
    split at h
    · injection h with h1; rw [← h1]
    · simp at h

theorem activate_room_notes (s : Store) (rid : Nat) (s' : Store)
    (h : activate_room s rid = Except.ok s') : s'.notes = s.notes := by
  unfold activate_room at h
  cases hf : s.rooms.find? (fun r => r.id == rid) with
  | none => rw [hf] at h; simp at h
  | some _ =>
    rw [hf] at h
    dsimp only at h
    injection h with h1
    rw [← h1]

theorem create_user_notes (s : Store) (nick : String) (tid uid : Nat) (t : Int) (s' : Store)
    (u : User) (h : create_user s nick tid uid t = Except.ok (s', u)) : s'.notes = s.notes := by
  unfold create_user at h
  cases hft : s.tables.find? (fun tb => tb.id == tid) with
  | none => rw [hft] at h; simp at h
  | some tb0 =>
    rw [hft] at h
    dsimp only at h
    cases hrm : s.rooms.find? (fun r => r.id == tb0.room_id) with
    | none => rw [hrm] at h; simp at h
    | some rm =>
      rw [hrm] at h
      dsimp only at h
      split at h
      · simp at h
      · injection h with h1
        injection h1 with h2 h3
        rw [← h2]

theorem create_note_ok (s : Store) (maxNotes : Nat) (req : NoteCreate) (nid : Nat) (t : Int)
    (s' : Store) (n' : Note) (h : create_note s maxNotes req nid t = Except.ok (s', n')) :
    s'.notes = s.notes ++ [n'] ∧ n'.id = nid := by
  unfold create_note at h
  cases hft : s.tables.find? (fun tb => tb.id == req.from_table_id) with
  | none => rw [hft] at h; dsimp only at h; simp at h
  | some ft =>
    cases htt : s.tables.find? (fun tb => tb.id == req.to_table_id) with
    | none => rw [hft, htt] at h; dsimp only at h; simp at h
    | some tt =>
      rw [hft, htt] at h
      dsimp only at h
      cases hrm : s.rooms.find? (fun r => r.id == ft.room_id) with
      | none => rw [hrm] at h; simp at h
      | some rm =>
        rw [hrm] at h
        dsimp only at h
        split at h
        · simp at h
        · split at h
          · simp at h
          · split at h
            · simp at h
            · split at h
              · simp at h
              · injection h with h1
                injection h1 with h2 h3
                constructor
                · rw [← h2, ← h3]
                · rw [← h3]

theorem mem_setNoteStatus : ∀ (l : List Note) (nid : Nat) (st : NoteStatus) (x : Note),
    x ∈ setNoteStatus l nid st →
    x ∈ l ∨ ∃ m, m ∈ l ∧ m.id = nid ∧ x = { m with status := st }
  | [], _, _, x, hx => by simp [setNoteStatus] at hx
  | n :: rest, nid, st, x, hx => by
    unfold setNoteStatus at hx
    by_cases h : n.id = nid
    · rw [if_pos (by simp [h])] at hx
      rcases List.mem_cons.mp hx with rfl | hx'
      · exact Or.inr ⟨n, List.mem_cons_self _ _, h, rfl⟩
      · exact Or.inl (List.mem_cons_of_mem _ hx')
    · rw [if_neg (by simp [h])] at hx
      rcases List.mem_cons.mp hx with rfl | hx'
      · exact Or.inl (List.mem_cons_self _ _)
      · rcases mem_setNoteStatus rest nid st x hx' with h1 | ⟨m, hm, hmid, hxm⟩
        · exact Or.inl (List.mem_cons_of_mem _ h1)
        · exact Or.inr ⟨m, List.mem_cons_of_mem _ hm, hmid, hxm⟩

theorem accept_note_ok (s : Store) (nid : Nat) (s' : Store) (n' : Note)
    (h : accept_note s nid = Except.ok (s', n')) :
    ∃ m, s.notes.find? (fun x => x.id == nid) = some m ∧ m.status = NoteStatus.sent
      ∧ s'.notes = setNoteStatus s.notes nid NoteStatus.accepted := by
  unfold accept_note at h
  cases hf : s.notes.find? (fun x => x.id == nid) with
  | none => rw [hf] at h; simp at h
  | some m =>
    rw [hf] at h
    dsimp only at h
    split at h
    · injection h with h1
      injection h1 with h2 h3
      exact ⟨m, rfl, by assumption, by rw [← h2]⟩
    · simp at h

theorem ignore_note_ok (s : Store) (nid : Nat) (s' : Store) (n' : Note)
    (h : ignore_note s nid = Except.ok (s', n')) :
    ∃ m, s.notes.find? (fun x => x.id == nid) = some m ∧ m.status = NoteStatus.sent
      ∧ s'.notes = setNoteStatus s.notes nid NoteStatus.ignored := by
  unfold ignore_note at h
  cases hf : s.notes.find? (fun x => x.id == nid) with
  | none => rw [hf] at h; simp at h
  | some m =>
    rw [hf] at h
    dsimp only at h
    split at h
    · injection h with h1
      injection h1 with h2 h3
      exact ⟨m, rfl, by assumption, by rw [← h2]⟩
    · simp at h

theorem note_eq_of_same_id (l : List Note) (hnd : (l.map (fun m => m.id)).Nodup)
    {a b : Note} (ha : a ∈ l) (hb : b ∈ l) (hid : a.id = b.id) : a = b :=
  List.inj_on_of_nodup_map hnd ha hb hid

theorem status_preserved_of_same_list (l : List Note) (hnd : (l.map (fun m => m.id)).Nodup)
    {n n' : Note} (hn : n ∈ l) (hn' : n' ∈ l) (hid : n'.id = n.id) : n'.status = n.status := by
  rw [note_eq_of_same_id l hnd hn' hn hid]

theorem delete_establishment_notes_sub (s : Store) (estId : Nat) (s' : Store)
    (h : delete_establishment s estId = Except.ok s') : ∀ x ∈ s'.notes, x ∈ s.notes := by
  unfold delete_establishment at h
  cases hf : s.establishments.find? (fun e => e.id == estId) with
  | none => rw [hf] at h; simp at h
  | some _ =>
    rw [hf] at h
    dsimp only at h
    injection h with h1
    intro x hx
    rw [← h1] at hx
    have hn := (outerFold_spec ((s.events.filter
      (fun e => e.establishment_id == some estId)).map (fun e => e.code)) s).2.2.2.2.1
    have hx' : x ∈ (((s.events.filter (fun e => e.establishment_id == some estId)).map
        (fun e => e.code)).foldl deleteForCode s).notes := hx
    rw [hn] at hx'
    exact (List.mem_filter.mp hx').1

theorem seedOne_notes (s : Store) (estId adminId eventId roomId tBase : Nat)
    (nm username pwHash qr : String) (nTables : Nat) (rng : Nat → Nat) (fuel : Nat)
    (now : Int) (s' : Store)
    (h : seedOne s estId adminId eventId roomId tBase nm username pwHash qr nTables rng
      fuel now = some s') : s'.notes = s.notes := by
  simp only [seedOne] at h
  split at h
  · simp at h
  · injection h with h1
    rw [← h1]
    rfl

theorem seed_database_notes (p : SeedParams) (s' : Store)
    (h : seed_database p = some s') : s'.notes = [] := by
  unfold seed_database at h
  cases h1 : seedOne emptyStore p.estIds.1 p.adminIds.1 p.eventIds.1 p.roomIds.1 p.tableBases.1
      "Bar Central" "bar_central" p.hashes.1 p.qrs.1 15 p.rng p.fuel p.now with
  | none => rw [h1] at h; simp at h
  | some s1 =>
    rw [h1] at h
    dsimp only at h
    cases h2 : seedOne s1 p.estIds.2.1 p.adminIds.2.1 p.eventIds.2.1 p.roomIds.2.1
        p.tableBases.2.1 "Noite do Bilhetinho" "noite_bilhetinho" p.hashes.2.1 p.qrs.2.1 20
        p.rng p.fuel p.now with
    | none => rw [h2] at h; simp at h
    | some s2 =>
      rw [h2] at h
      dsimp only at h
      have e3 := seedOne_notes s2 p.estIds.2.2 p.adminIds.2.2 p.eventIds.2.2 p.roomIds.2.2
        p.tableBases.2.2 "Casa Show Tropical" "casa_tropical" p.hashes.2.2 p.qrs.2.2 10
        p.rng p.fuel p.now s' h
      have e2 := seedOne_notes s1 p.estIds.2.1 p.adminIds.2.1 p.eventIds.2.1 p.roomIds.2.1
        p.tableBases.2.1 "Noite do Bilhetinho" "noite_bilhetinho" p.hashes.2.1 p.qrs.2.1 20
        p.rng p.fuel p.now s2 h2
      have e1 := seedOne_notes emptyStore p.estIds.1 p.adminIds.1 p.eventIds.1 p.roomIds.1
        p.tableBases.1 "Bar Central" "bar_central" p.hashes.1 p.qrs.1 15
        p.rng p.fuel p.now s1 h1
      rw [e3, e2, e1]
      rfl

/-- C3: a note's status changes at most once, from `sent` to `accepted` or
`ignored`: responding to a sent note sets the chosen status, responding to
a non-sent note fails with the already-processed conflict and changes
nothing, and no operation of the transition system moves a note out of a
non-`sent` status (assuming distinct note ids, which `uuid4` guarantees). -/
theorem C3_note_single_transition :
    (∀ (s : Store) (nid : Nat) (n : Note),
      s.notes.find? (fun m => m.id == nid) = some n → n.status = NoteStatus.sent →
      accept_note s nid =
        Except.ok ({ s with notes := setNoteStatus s.notes nid NoteStatus.accepted },
                   { n with status := NoteStatus.accepted })
      ∧ ignore_note s nid =
        Except.ok ({ s with notes := setNoteStatus s.notes nid NoteStatus.ignored },
                   { n with status := NoteStatus.ignored }))
    ∧ (∀ (s : Store) (nid : Nat) (n : Note),
      s.notes.find? (fun m => m.id == nid) = some n → n.status ≠ NoteStatus.sent →
      accept_note s nid = Except.error RespondError.alreadyProcessed
      ∧ ignore_note s nid = Except.error RespondError.alreadyProcessed)
    ∧ (∀ (s s' : Store), Step s s' → (s.notes.map (fun m => m.id)).Nodup →
      ∀ n ∈ s.notes, n.status ≠ NoteStatus.sent →
      ∀ n' ∈ s'.notes, n'.id = n.id → n'.status = n.status) := by
  refine ⟨?_, ?_, ?_⟩
  · intro s nid n hfind hsent
    unfold accept_note ignore_note
    rw [hfind]
    simp [hsent]
  · intro s nid n hfind hne
    unfold accept_note ignore_note
    rw [hfind]
    simp [hne]
  · intro s s' hstep hnd n hn hnstat n' hn' hid
    cases hstep with
    | estCreated id nm t =>
      exact status_preserved_of_same_list s.notes hnd hn hn' hid
    | estUpdated estId nm s1 h =>
      rw [update_establishment_notes s estId nm s' h] at hn'
      exact status_preserved_of_same_list s.notes hnd hn hn' hid
    | estDeleted estId s1 h =>
      have hn'' := delete_establishment_notes_sub s estId s' h n' hn'
      exact status_preserved_of_same_list s.notes hnd hn hn'' hid
    | adminCreated id u pw estId t s1 h =>
      rw [create_admin_user_notes s id u pw estId t s' h] at hn'
      exact status_preserved_of_same_list s.notes hnd hn hn' hid
    | adminUpdated adminId nu ne s1 h =>
      rw [update_admin_user_notes s adminId nu ne s' h] at hn'
      exact status_preserved_of_same_list s.notes hnd hn hn' hid
    | adminPasswordUpdated adminId pw s1 h =>
      rw [update_admin_password_notes s adminId pw s' h] at hn'
      exact status_preserved_of_same_list s.notes hnd hn hn' hid
    | adminDeleted adminId s1 h =>
      rw [delete_admin_user_notes s adminId s' h] at hn'
      exact status_preserved_of_same_list s.notes hnd hn hn' hid
    | eventCreated estId sd ed k rng fuel qr eid rid tb t s1 h =>
      rw [create_event_notes s estId sd ed k rng fuel qr eid rid tb t s' h] at hn'
      exact status_preserved_of_same_list s.notes hnd hn hn' hid
    | eventDeactivated eid estId s1 h =>
      rw [deactivate_event_notes s eid estId s' h] at hn'
      exact status_preserved_of_same_list s.notes hnd hn hn' hid
    | roomCreated nm code rid t =>
      exact status_preserved_of_same_list s.notes hnd hn hn' hid
    | roomActivated rid s1 h =>
      rw [activate_room_notes s rid s' h] at hn'
      exact status_preserved_of_same_list s.notes hnd hn hn' hid
    | userCreated nick tid uid t s1 u h =>
      rw [create_user_notes s nick tid uid t s' u h] at hn'
      exact status_preserved_of_same_list s.notes hnd hn hn' hid
    | noteCreated maxNotes req nid t s1 nNew hfresh h =>
      obtain ⟨happ, hidn⟩ := create_note_ok s maxNotes req nid t s' nNew h
      rw [happ] at hn'
      rcases List.mem_append.mp hn' with h1 | h1
      · exact status_preserved_of_same_list s.notes hnd hn h1 hid
      · exfalso
        have hxn : n' = nNew := by simpa using h1
        apply hfresh
        rw [← hidn, ← hxn, hid]
        exact List.mem_map_of_mem _ hn
    | noteAccepted nid s1 nr h =>
      obtain ⟨m, hfind, hms, hnotes⟩ := accept_note_ok s nid s' nr h
      rw [hnotes] at hn'
      rcases mem_setNoteStatus s.notes nid NoteStatus.accepted n' hn' with h1 | ⟨m', hm', hm'id, hxm⟩
      · exact status_preserved_of_same_list s.notes hnd hn h1 hid
      · exfalso
        have hmmem := List.mem_of_find?_eq_some hfind
        have hmid : m.id = nid := by simpa using List.find?_some hfind
        have hnid : n.id = nid := by
          have : n'.id = m'.id := by rw [hxm]
          rw [← hid, this, hm'id]
        have : n = m := note_eq_of_same_id s.notes hnd hn hmmem (by rw [hnid, hmid])
        rw [this] at hnstat
        exact hnstat hms
    | noteIgnored nid s1 nr h =>
      obtain ⟨m, hfind, hms, hnotes⟩ := ignore_note_ok s nid s' nr h
      rw [hnotes] at hn'
      rcases mem_setNoteStatus s.notes nid NoteStatus.ignored n' hn' with h1 | ⟨m', hm', hm'id, hxm⟩
      · exact status_preserved_of_same_list s.notes hnd hn h1 hid
      · exfalso
        have hmmem := List.mem_of_find?_eq_some hfind
        have hmid : m.id = nid := by simpa using List.find?_some hfind
        have hnid : n.id = nid := by
          have : n'.id = m'.id := by rw [hxm]
          rw [← hid, this, hm'id]
        have : n = m := note_eq_of_same_id s.notes hnd hn hmmem (by rw [hnid, hmid])
        rw [this] at hnstat
        exact hnstat hms
    | seeded p s1 h =>
      rw [seed_database_notes p s' h] at hn'
      simp at hn'

/-- Witness for C3: responding to the sent note of `c10Store` succeeds,
responding again to the accepted note of `c3Store` conflicts, and a step
taken from `c3Store` leaves the accepted note's status unchanged. -/
theorem C3_note_single_transition_witness :
    accept_note c10Store 7 =
      Except.ok ({ c10Store with notes := setNoteStatus c10Store.notes 7 NoteStatus.accepted },
                 { id := 7, room_id := 1, from_table_id := 100, to_table_id := 101,
                   message := "hi", status := NoteStatus.accepted, is_anonymous := true,
                   created_at := 0 })
    ∧ accept_note c3Store 7 = Except.error RespondError.alreadyProcessed
    ∧ ({ id := 7, room_id := 1, from_table_id := 100, to_table_id := 101,
         message := "hi", status := NoteStatus.accepted, is_anonymous := true,
         created_at := 0 } : Note).status
      = ({ id := 7, room_id := 1, from_table_id := 100, to_table_id := 101,
           message := "hi", status := NoteStatus.accepted, is_anonymous := true,
           created_at := 0 } : Note).status :=
  ⟨(C3_note_single_transition.1 c10Store 7
      { id := 7, room_id := 1, from_table_id := 100, to_table_id := 101,
        message := "hi", status := NoteStatus.sent, is_anonymous := true, created_at := 0 }
      (by decide) (by decide)).1,
   (C3_note_single_transition.2.1 c3Store 7
      { id := 7, room_id := 1, from_table_id := 100, to_table_id := 101,
        message := "hi", status := NoteStatus.accepted, is_anonymous := true, created_at := 0 }
      (by decide) (by decide)).1,
   C3_note_single_transition.2.2 c3Store (create_establishment c3Store 1 "A" 0)
      (Step.estCreated c3Store 1 "A" 0) (by decide)
      { id := 7, room_id := 1, from_table_id := 100, to_table_id := 101,
        message := "hi", status := NoteStatus.accepted, is_anonymous := true, created_at := 0 }
      (by decide) (by decide)
      { id := 7, room_id := 1, from_table_id := 100, to_table_id := 101,
        message := "hi", status := NoteStatus.accepted, is_anonymous := true, created_at := 0 }
      (by decide) (by decide)⟩

/-- Witness for C8 at the two-tenant store `c8Store`, deleting
establishment 1. -/
theorem C8_delete_establishment_witness :
    c8Post.events = c8Store.events.filter (fun e => !(e.establishment_id == some 1))
    ∧ c8Post.rooms = c8Store.rooms.filter (fun r => !((estCodes c8Store 1).contains r.event_code))
    ∧ c8Post.tables = c8Store.tables.filter (fun tb => !((descRoomIds c8Store 1).contains tb.room_id))
    ∧ c8Post.users = c8Store.users.filter (fun u => !((descRoomIds c8Store 1).contains u.room_id))
    ∧ c8Post.notes = c8Store.notes.filter (fun n => !((descRoomIds c8Store 1).contains n.room_id))
    ∧ c8Post.admins = c8Store.admins.filter (fun a => !(a.establishment_id == 1))
    ∧ c8Post.establishments = c8Store.establishments.filter (fun e => !(e.id == 1)) :=
  C8_delete_establishment c8Store 1 c8Post (by decide)

end Bilhetinho
